import Mathlib

/-!
A verification development for the palette resolution engine of the Modus
themes extension (`src/extension.ts`), as a shallow embedding in Lean.

Modelling conventions:
JavaScript `Map` objects are association lists with first-match lookup
(`lookupA`); `Map.set` replaces the value at an existing key in place and
appends a fresh key at the end (`mapSet`).  Thrown exceptions are modelled
with `Except`; a function that catches all of its exceptions internally and
returns `undefined` (`resolveColor`) returns `Option` instead.  Logging is
ignored.  File reading is outside the embedding: `parseThemeContent` starts
from the file content `parseThemeFile` has already read.
-/

/-- The TS `ThemeType` string enum (`light` / `dark`). -/
inductive ThemeType where
  | light
  | dark
deriving DecidableEq, Repr

/-- The extension's error hierarchy (`ModusThemeError` subclasses), with the
message carried along.  Plain `Error`s thrown by `Validator` are re-wrapped
by every catch block of the engine into one of these, so only the wrapped
forms appear. -/
inductive ModusThemeError where
  | themeParse (msg : String)
  | themeGeneration (msg : String)
deriving DecidableEq, Repr

/-- `IColorPalette`: direct colors (`colors`) and semantic aliases
(`semantics`), keyed by name. -/
structure IColorPalette where
  colors : List (String × String)
  semantics : List (String × String)
deriving DecidableEq, Repr

/-- `Map.get`: the value at the first matching key, if any. -/
def lookupA (k : String) : List (String × String) → Option String
  | [] => none
  | (k2, v) :: t => if k = k2 then some v else lookupA k t

/-- `Map.set` on an association list: replace in place when the key is
present, append otherwise. -/
def mapSet (m : List (String × String)) (k v : String) : List (String × String) :=
  if (lookupA k m).isSome then
    m.map (fun e => if e.1 = k then (k, v) else e)
  else
    m ++ [(k, v)]

/-- One character of the hex charset `[0-9a-fA-F]`. -/
def isHexDigit (c : Char) : Bool :=
  ('0' ≤ c && c ≤ '9') || ('a' ≤ c && c ≤ 'f') || ('A' ≤ c && c ≤ 'F')

/-- `Validator.hexColor`: the test `/^#[0-9A-Fa-f]{6}$/.test(value)`. -/
def isHexColor (s : String) : Bool :=
  match s.data with
  | '#' :: rest => rest.length == 6 && rest.all isHexDigit
  | _ => false

/-- `value.startsWith('#')`. -/
def startsWithHash (s : String) : Bool :=
  match s.data with
  | '#' :: _ => true
  | _ => false

/-- The keys of an association list. -/
def assocKeys (m : List (String × String)) : List String :=
  m.map Prod.fst

theorem lookupA_some_mem_keys {m : List (String × String)} {a b : String}
    (h : lookupA a m = some b) : a ∈ assocKeys m := by
  induction m with
  | nil => simp [lookupA] at h
  | cons e t ih =>
    by_cases hak : a = e.1
    · simp [assocKeys, hak]
    · rw [show e = (e.1, e.2) from rfl, lookupA, if_neg hak] at h
      exact List.mem_cons_of_mem _ (ih h)

theorem lookupA_some_mem_pair {m : List (String × String)} {a b : String}
    (h : lookupA a m = some b) : (a, b) ∈ m := by
  induction m with
  | nil => simp [lookupA] at h
  | cons e t ih =>
    by_cases hak : a = e.1
    · rw [show e = (e.1, e.2) from rfl, lookupA, if_pos hak] at h
      rw [hak, ← Option.some_inj.mp h]
      exact List.mem_cons_self _ _
    · rw [show e = (e.1, e.2) from rfl, lookupA, if_neg hak] at h
      exact List.mem_cons_of_mem _ (ih h)

/-- The `while` loop of `ThemeParser.resolveColor`: follow semantic mappings
with cycle detection.  Loop condition
`palette.semantics.has(current) && !visited.has(current)`; the body adds
`current` to the visited set, steps to its semantic target, and returns that
target's direct color when it has one. -/
def resolveLoop (p : IColorPalette) (visited : List String) (current : String) :
    Option String :=
  match hsem : lookupA current p.semantics with
  | none => none
  | some nxt =>
    if hvis : current ∈ visited then none
    else
      if (lookupA nxt p.colors).isSome then
        lookupA nxt p.colors
      else
        resolveLoop p (current :: visited) nxt
termination_by ((assocKeys p.semantics).toFinset \ visited.toFinset).card
decreasing_by
  have hmem : current ∈ (assocKeys p.semantics).toFinset \ visited.toFinset := by
    refine Finset.mem_sdiff.mpr ⟨List.mem_toFinset.mpr (lookupA_some_mem_keys hsem), ?_⟩
    intro hc
    exact hvis (List.mem_toFinset.mp hc)
  calc ((assocKeys p.semantics).toFinset \ (current :: visited).toFinset).card
      = (((assocKeys p.semantics).toFinset \ visited.toFinset).erase current).card := by
        rw [List.toFinset_cons, Finset.sdiff_insert]
    _ < ((assocKeys p.semantics).toFinset \ visited.toFinset).card :=
        Finset.card_erase_lt_of_mem hmem

/-- `ThemeParser.resolveColor`.  An empty name fails the `notEmpty` check and
the thrown error is caught by the function's own catch block, giving
`undefined` (`none`); a name with a direct color returns that color;
otherwise the semantic chain is walked with cycle detection. -/
def resolveColor (name : String) (p : IColorPalette) : Option String :=
  if name = "" then none
  else
    match lookupA name p.colors with
    | some v => some v
    | none => resolveLoop p [] name

/-- One character of the name charset `[a-zA-Z0-9-]` of both parsing
patterns of `parseThemeFile`. -/
def isNameChar (c : Char) : Bool :=
  ('a' ≤ c && c ≤ 'z') || ('A' ≤ c && c ≤ 'Z') || ('0' ≤ c && c ≤ '9') || c = '-'

/-- One character of the JavaScript regex class `\s`. -/
def isJsSpace (c : Char) : Bool :=
  c = ' ' || c = '\t' || c = '\n' || c = '\x0b' || c = '\x0c' || c = '\r' ||
  c = '\u00A0' || c = '\u1680' || ('\u2000' ≤ c && c ≤ '\u200A') ||
  c = '\u2028' || c = '\u2029' || c = '\u202F' || c = '\u205F' ||
  c = '\u3000' || c = '\uFEFF'

/-- A match of `/\(([a-zA-Z0-9-]+)\s+"(#[0-9a-fA-F]{6})"\)/` at the head
of `l`: the two capture groups and the remaining text.  Because the
character classes of adjacent pieces are disjoint, the regex engine's
backtracking search at a position is equivalent to this greedy match. -/
def matchDirect (l : List Char) : Option (String × String × List Char) :=
  match l with
  | [] => none
  | c :: r0 =>
    if c = '(' then
      let name := r0.takeWhile isNameChar
      if name.isEmpty then none
      else
        let r1 := r0.dropWhile isNameChar
        if (r1.takeWhile isJsSpace).isEmpty then none
        else
          match r1.dropWhile isJsSpace with
          | '"' :: '#' :: h1 :: h2 :: h3 :: h4 :: h5 :: h6 :: '"' :: ')' :: r3 =>
            if isHexDigit h1 && isHexDigit h2 && isHexDigit h3 &&
                isHexDigit h4 && isHexDigit h5 && isHexDigit h6 then
              some (String.mk name, String.mk ('#' :: [h1, h2, h3, h4, h5, h6]), r3)
            else none
          | _ => none
    else none

/-- A match of `/\(([a-zA-Z0-9-]+)\s+([a-zA-Z0-9-]+)\)/` at the head of `l`. -/
def matchSemantic (l : List Char) : Option (String × String × List Char) :=
  match l with
  | [] => none
  | c :: r0 =>
    if c = '(' then
      let name := r0.takeWhile isNameChar
      if name.isEmpty then none
      else
        let r1 := r0.dropWhile isNameChar
        if (r1.takeWhile isJsSpace).isEmpty then none
        else
          let r2 := r1.dropWhile isJsSpace
          let target := r2.takeWhile isNameChar
          if target.isEmpty then none
          else
            match r2.dropWhile isNameChar with
            | ')' :: r3 => some (String.mk name, String.mk target, r3)
            | _ => none
    else none

/-- All matches of the direct-entry pattern over the text, in order: the
`while ((colorMatch = colorRegex.exec(content)) !== null)` loop.  `exec`
with the `g` flag resumes after the end of the previous match; since a
match contains `(` only as its first character, no match can begin inside
another, and advancing one character at a time finds exactly the matches
`exec` finds. -/
def scanDirect : List Char → List (String × String)
  | [] => []
  | c :: rest =>
    match matchDirect (c :: rest) with
    | some (n, v, _) => (n, v) :: scanDirect rest
    | none => scanDirect rest

/-- All matches of the semantic-entry pattern over the text, in order (same
argument as `scanDirect` for the one-character stride). -/
def scanSemantic : List Char → List (String × String)
  | [] => []
  | c :: rest =>
    match matchSemantic (c :: rest) with
    | some (n, v, _) => (n, v) :: scanSemantic rest
    | none => scanSemantic rest

/-- `ThemeParser.parseThemeFile`, from the already-read file content: build
the direct-color map (each candidate guarded by `Validator.notEmpty` and
`Validator.hexColor`, invalid ones skipped), build the semantic map (targets
starting with `#` skipped), and fail with `ThemeParseError` when no direct
colors were found. -/
def parseThemeContent (content : String) : Except ModusThemeError IColorPalette :=
  let colors := (scanDirect content.data).foldl
    (fun m e => if e.1 != "" && isHexColor e.2 then mapSet m e.1 e.2 else m) []
  let semantics := (scanSemantic content.data).foldl
    (fun m e => if startsWithHash e.2 then m else mapSet m e.1 e.2) []
  if colors.isEmpty then
    Except.error (ModusThemeError.themeParse "No colors found in theme file")
  else
    Except.ok ⟨colors, semantics⟩

/-- The loop of `ThemeParser.applyOverrides` over the override entries, in
order.  `Validator.notEmpty` on the key or value throws, escaping to the
function's catch block which wraps the error in a `ThemeParseError`; a
`#`-prefixed value failing `Validator.hexColor` is caught inside the loop
and skipped; other values are recorded as semantic overrides. -/
def applyOverridesLoop (colors semantics : List (String × String)) :
    List (String × String) →
      Except ModusThemeError (List (String × String) × List (String × String))
  | [] => Except.ok (colors, semantics)
  | (k, v) :: rest =>
    if k = "" then
      Except.error (ModusThemeError.themeParse
        "Failed to apply overrides: Override key cannot be empty")
    else if v = "" then
      Except.error (ModusThemeError.themeParse
        "Failed to apply overrides: Override value cannot be empty")
    else if startsWithHash v then
      if isHexColor v then applyOverridesLoop (mapSet colors k v) semantics rest
      else applyOverridesLoop colors semantics rest
    else
      applyOverridesLoop colors (mapSet semantics k v) rest

/-- `ThemeParser.applyOverrides`: copy both maps, then fold the override
entries over them. -/
def applyOverrides (p : IColorPalette) (overrides : List (String × String)) :
    Except ModusThemeError IColorPalette :=
  (applyOverridesLoop p.colors p.semantics overrides).map fun r => ⟨r.1, r.2⟩

/-- `IThemeDefinition`. -/
structure IThemeDefinition where
  id : String
  name : String
  type : ThemeType
  sourceFile : String
  description : String
deriving DecidableEq, Repr

/-- `IExtensionConfiguration`. -/
structure IExtensionConfiguration where
  boldKeywords : Bool
  italicComments : Bool
  colorOverrides : List (String × String)
  useSemanticHighlighting : Bool
  debugMode : Bool
deriving DecidableEq, Repr

/-- `ITokenStyle`: a scope list with its settings. -/
structure ITokenStyle where
  scope : List String
  foreground : Option String
  fontStyle : Option String
deriving DecidableEq, Repr

/-- `IVSCodeTheme`. -/
structure IVSCodeTheme where
  name : String
  type : ThemeType
  colors : List (String × String)
  tokenColors : List ITokenStyle
  semanticHighlighting : Bool
deriving DecidableEq, Repr

/-- JavaScript `a || b` on strings (an empty string is falsy), for the
fallback chains of `ThemeGenerator`. -/
def jsOr (a : Option String) (b : String) : String :=
  match a with
  | some s => if s = "" then b else s
  | none => b

/-- `Validator.themeDefinition`, as reached through `generateTheme`: a
thrown plain `Error` is wrapped by `generateTheme`'s catch block into a
`ThemeGenerationError`.  The `type` check cannot fail in the embedding
because `ThemeType` has exactly the two legal values. -/
def validateThemeDefinition (d : IThemeDefinition) : Except ModusThemeError Unit :=
  if d.id = "" then
    Except.error (ModusThemeError.themeGeneration
      "Failed to generate theme: Theme ID cannot be empty")
  else if d.name = "" then
    Except.error (ModusThemeError.themeGeneration
      "Failed to generate theme: Theme name cannot be empty")
  else if d.sourceFile = "" then
    Except.error (ModusThemeError.themeGeneration
      "Failed to generate theme: Theme source file cannot be empty")
  else
    Except.ok ()

/-- The local `getColor` helper of `ThemeGenerator.generateTheme`: resolve
through the parser, throw `ThemeGenerationError` when unresolvable. -/
def getColor (p : IColorPalette) (themeId : String) (colorName : String) :
    Except ModusThemeError String :=
  match resolveColor colorName p with
  | some c => Except.ok c
  | none => Except.error (ModusThemeError.themeGeneration
      ("Missing color: " ++ colorName ++ " in theme " ++ themeId))
/-- `VS_CODE_UI_MAPPINGS`: the static UI-element mapping table, in source
order (entries only; commented-out entries of the source are omitted as they
are not part of the object literal). -/
def VS_CODE_UI_MAPPINGS : List (String × List String) := [
  ("focusBorder", ["border-mode-line-active"]),
  ("foreground", ["fg-main"]),
  ("disabledForeground", ["fg-dim"]),
  ("widget.border", ["bg-active"]),
  ("widget.shadow", ["bg-dim"]),
  ("selection.background", ["bg-region"]),
  ("descriptionForeground", ["fg-dim"]),
  ("errorForeground", ["red"]),
  ("icon.foreground", ["fg-main"]),
  ("sash.hoverBorder", ["border-mode-line-active"]),
  ("window.activeBorder", ["bg-mode-line-active"]),
  ("window.inactiveBorder", ["bg-inactive"]),
  ("textBlockQuote.background", ["bg-dim"]),
  ("textBlockQuote.border", ["border-region"]),
  ("textCodeBlock.background", ["bg-dim"]),
  ("textLink.activeForeground", ["fg-link-visited"]),
  ("textLink.foreground", ["fg-link"]),
  ("textPreformat.foreground", ["fg-special-cold"]),
  ("textPreformat.background", ["bg-dim"]),
  ("textSeparator.foreground", ["fg-dim"]),
  ("toolbar.hoverBackground", ["bg-hover"]),
  ("toolbar.hoverOutline", ["border-mode-line-active"]),
  ("toolbar.activeBackground", ["bg-active"]),
  ("editorActionList.background", ["bg-dim"]),
  ("editorActionList.foreground", ["fg-main"]),
  ("editorActionList.focusForeground", ["fg-active"]),
  ("editorActionList.focusBackground", ["bg-active-item"]),
  ("button.background", ["bg-active"]),
  ("button.foreground", ["fg-active"]),
  ("button.border", ["border-region"]),
  ("button.separator", ["fg-dim"]),
  ("button.hoverBackground", ["bg-active-item"]),
  ("button.secondaryForeground", ["fg-main"]),
  ("button.secondaryBackground", ["bg-dim"]),
  ("button.secondaryHoverBackground", ["bg-hover"]),
  ("checkbox.background", ["bg-inactive"]),
  ("checkbox.foreground", ["fg-main"]),
  ("checkbox.border", ["border-region"]),
  ("checkbox.selectBackground", ["bg-active"]),
  ("checkbox.selectBorder", ["border-mode-line-active"]),
  ("radio.activeForeground", ["fg-active"]),
  ("radio.activeBackground", ["bg-active"]),
  ("radio.activeBorder", ["border-mode-line-active"]),
  ("radio.inactiveForeground", ["fg-main"]),
  ("radio.inactiveBackground", ["bg-inactive"]),
  ("radio.inactiveBorder", ["border-region"]),
  ("radio.inactiveHoverBackground", ["bg-hover"]),
  ("dropdown.background", ["bg-dim"]),
  ("dropdown.listBackground", ["bg-alt"]),
  ("dropdown.border", ["border-region"]),
  ("dropdown.foreground", ["fg-main"]),
  ("input.background", ["bg-dim"]),
  ("input.foreground", ["fg-main"]),
  ("input.border", ["border-region"]),
  ("input.placeholderForeground", ["fg-dim"]),
  ("inputOption.activeBackground", ["bg-active"]),
  ("inputOption.activeBorder", ["border-mode-line-active"]),
  ("inputOption.activeForeground", ["fg-active"]),
  ("inputOption.hoverBackground", ["bg-hover"]),
  ("inputValidation.errorBackground", ["bg-red-subtle"]),
  ("inputValidation.errorForeground", ["red"]),
  ("inputValidation.errorBorder", ["red-warmer"]),
  ("inputValidation.infoBackground", ["bg-blue-subtle"]),
  ("inputValidation.infoForeground", ["blue"]),
  ("inputValidation.infoBorder", ["blue-warmer"]),
  ("inputValidation.warningBackground", ["bg-yellow-subtle"]),
  ("inputValidation.warningForeground", ["yellow"]),
  ("inputValidation.warningBorder", ["yellow-warmer"]),
  ("scrollbar.shadow", ["bg-dim"]),
  ("scrollbarSlider.activeBackground", ["bg-scroll-active"]),
  ("scrollbarSlider.background", ["bg-scroll"]),
  ("scrollbarSlider.hoverBackground", ["bg-scroll-hover"]),
  ("badge.foreground", ["fg-active"]),
  ("badge.background", ["bg-active"]),
  ("progressBar.background", ["bg-active"]),
  ("list.activeSelectionBackground", ["bg-active-item"]),
  ("list.activeSelectionForeground", ["fg-active"]),
  ("list.activeSelectionIconForeground", ["fg-active"]),
  ("list.dropBackground", ["bg-dim"]),
  ("list.focusBackground", ["bg-active-item"]),
  ("list.focusForeground", ["fg-active"]),
  ("list.focusHighlightForeground", ["fg-active"]),
  ("list.focusOutline", ["border-mode-line-active"]),
  ("list.focusAndSelectionOutline", ["border-mode-line-active"]),
  ("list.highlightForeground", ["fg-active"]),
  ("list.hoverBackground", ["bg-hover"]),
  ("list.hoverForeground", ["fg-main"]),
  ("list.inactiveSelectionBackground", ["bg-inactive"]),
  ("list.inactiveSelectionForeground", ["fg-inactive"]),
  ("list.inactiveSelectionIconForeground", ["fg-inactive"]),
  ("list.inactiveFocusBackground", ["bg-inactive"]),
  ("list.inactiveFocusOutline", ["border-mode-line-inactive"]),
  ("list.invalidItemForeground", ["red-warmer"]),
  ("list.errorForeground", ["red"]),
  ("list.warningForeground", ["yellow-warmer"]),
  ("listFilterWidget.background", ["bg-dim"]),
  ("listFilterWidget.outline", ["border-region"]),
  ("listFilterWidget.noMatchesOutline", ["red-warmer"]),
  ("listFilterWidget.shadow", ["bg-dim"]),
  ("list.filterMatchBackground", ["bg-search-lazy"]),
  ("list.filterMatchBorder", ["border-search-lazy"]),
  ("list.deemphasizedForeground", ["fg-dim"]),
  ("list.dropBetweenBackground", [""]),
  ("tree.indentGuidesStroke", [""]),
  ("tree.inactiveIndentGuidesStroke", [""]),
  ("tree.tableColumnsBorder", [""]),
  ("tree.tableOddRowsBackground", [""]),
  ("activityBar.background", ["bg-mode-line-inactive"]),
  ("activityBar.dropBorder", ["border-mode-line-active"]),
  ("activityBar.foreground", ["fg-main"]),
  ("activityBar.inactiveForeground", ["fg-dim"]),
  ("activityBar.border", ["border-mode-line-inactive"]),
  ("activityBarBadge.background", ["bg-active"]),
  ("activityBarBadge.foreground", ["fg-main"]),
  ("activityBar.activeBorder", ["border-mode-line-active"]),
  ("activityBar.activeBackground", ["bg-active"]),
  ("activityBar.activeFocusBorder", ["border-mode-line-active"]),
  ("activityBarTop.foreground", ["fg-main"]),
  ("activityBarTop.activeBorder", ["border-mode-line-active"]),
  ("activityBarTop.inactiveForeground", ["fg-dim"]),
  ("activityBarTop.dropBorder", ["border-mode-line-active"]),
  ("activityBarTop.background", ["bg-alt"]),
  ("activityBarTop.activeBackground", ["bg-active"]),
  ("activityWarningBadge.foreground", ["fg-active"]),
  ("activityWarningBadge.background", ["yellow-warmer"]),
  ("activityErrorBadge.foreground", ["fg-active"]),
  ("activityErrorBadge.background", ["red-warmer"]),
  ("profileBadge.background", ["bg-active"]),
  ("profileBadge.foreground", ["fg-active"]),
  ("profiles.sashBorder", ["border-region"]),
  ("sideBar.background", ["bg-dim"]),
  ("sideBar.foreground", ["fg-main"]),
  ("sideBar.border", ["border-region"]),
  ("sideBar.dropBackground", ["bg-dim"]),
  ("sideBarTitle.foreground", ["fg-special-cold"]),
  ("sideBarSectionHeader.background", ["bg-alt"]),
  ("sideBarSectionHeader.foreground", ["fg-special-cold"]),
  ("sideBarSectionHeader.border", ["border-region"]),
  ("sideBarActivityBarTop.border", ["border-region"]),
  ("sideBarTitle.background", ["bg-alt"]),
  ("sideBarTitle.border", ["border-region"]),
  ("sideBarStickyScroll.background", ["bg-dim"]),
  ("sideBarStickyScroll.border", ["border-region"]),
  ("sideBarStickyScroll.shadow", ["bg-dim"]),
  ("minimap.findMatchHighlight", ["bg-search-lazy"]),
  ("minimap.selectionHighlight", ["bg-region"]),
  ("minimap.errorHighlight", ["red-warmer"]),
  ("minimap.warningHighlight", ["yellow-warmer"]),
  ("minimap.background", ["bg-dim"]),
  ("minimap.selectionOccurrenceHighlight", ["bg-active-item"]),
  ("minimap.foregroundOpacity", ["#00000080"]),
  ("minimap.infoHighlight", ["blue-warmer"]),
  ("minimap.chatEditHighlight", ["magenta-warmer"]),
  ("minimapSlider.background", ["bg-scroll"]),
  ("minimapSlider.hoverBackground", ["bg-scroll-hover"]),
  ("minimapSlider.activeBackground", ["bg-scroll-active"]),
  ("minimapGutter.addedBackground", ["green-warmer"]),
  ("minimapGutter.modifiedBackground", ["yellow-warmer"]),
  ("minimapGutter.deletedBackground", ["red-warmer"]),
  ("editorMinimap.inlineChatInserted", ["green-warmer"]),
  ("editorGroup.border", ["border-region"]),
  ("editorGroup.dropBackground", ["bg-dim"]),
  ("editorGroupHeader.noTabsBackground", ["bg-alt"]),
  ("editorGroupHeader.tabsBackground", ["bg-alt"]),
  ("editorGroupHeader.tabsBorder", ["border-region"]),
  ("editorGroupHeader.border", ["border-region"]),
  ("editorGroup.emptyBackground", ["bg-dim"]),
  ("editorGroup.focusedEmptyBorder", ["border-mode-line-active"]),
  ("editorGroup.dropIntoPromptForeground", ["fg-main"]),
  ("editorGroup.dropIntoPromptBackground", ["bg-dim"]),
  ("editorGroup.dropIntoPromptBorder", ["border-region"]),
  ("tab.activeBackground", ["bg-main"]),
  ("tab.unfocusedActiveBackground", ["bg-inactive"]),
  ("tab.activeForeground", ["fg-main"]),
  ("tab.border", ["border-region"]),
  ("tab.activeBorder", ["border-mode-line-active"]),
  ("tab.selectedBorderTop", ["border-mode-line-active"]),
  ("tab.selectedBackground", ["bg-active"]),
  ("tab.selectedForeground", ["fg-active"]),
  ("tab.dragAndDropBorder", ["border-mode-line-active"]),
  ("tab.unfocusedActiveBorder", ["border-mode-line-inactive"]),
  ("tab.activeBorderTop", ["border-mode-line-active"]),
  ("tab.unfocusedActiveBorderTop", ["border-mode-line-inactive"]),
  ("tab.lastPinnedBorder", ["border-region"]),
  ("tab.inactiveBackground", ["bg-dim"]),
  ("tab.unfocusedInactiveBackground", ["bg-inactive"]),
  ("tab.inactiveForeground", ["fg-dim"]),
  ("tab.unfocusedActiveForeground", ["fg-dim"]),
  ("tab.unfocusedInactiveForeground", ["fg-dim"]),
  ("tab.hoverBackground", ["bg-hover"]),
  ("tab.unfocusedHoverBackground", ["bg-hover"]),
  ("tab.hoverForeground", ["fg-main"]),
  ("tab.unfocusedHoverForeground", ["fg-dim"]),
  ("tab.hoverBorder", ["border-mode-line-active"]),
  ("tab.unfocusedHoverBorder", ["border-mode-line-inactive"]),
  ("tab.activeModifiedBorder", ["yellow-warmer"]),
  ("tab.inactiveModifiedBorder", ["yellow"]),
  ("tab.unfocusedActiveModifiedBorder", ["yellow"]),
  ("tab.unfocusedInactiveModifiedBorder", ["yellow"]),
  ("editorPane.background", ["bg-dim"]),
  ("sideBySideEditor.horizontalBorder", ["border-region"]),
  ("sideBySideEditor.verticalBorder", ["border-region"]),
  ("editor.background", ["bg-main"]),
  ("editor.foreground", ["fg-main"]),
  ("editorLineNumber.foreground", ["fg-dim"]),
  ("editorLineNumber.activeForeground", ["fg-main"]),
  ("editorLineNumber.dimmedForeground", ["fg-dim"]),
  ("editorCursor.background", ["bg-main"]),
  ("editorCursor.foreground", ["fg-main"]),
  ("editorMultiCursor.primary.foreground", ["fg-main"]),
  ("editorMultiCursor.primary.background", ["bg-main"]),
  ("editorMultiCursor.secondary.foreground", ["fg-dim"]),
  ("editorMultiCursor.secondary.background", ["bg-dim"]),
  ("editor.placeholder.foreground", ["fg-dim"]),
  ("editor.compositionBorder", ["border-mode-line-active"]),
  ("editor.selectionBackground", ["bg-region"]),
  ("editor.selectionForeground", ["fg-main"]),
  ("editor.inactiveSelectionBackground", ["bg-inactive"]),
  ("editor.selectionHighlightBackground", ["bg-region"]),
  ("editor.selectionHighlightBorder", ["border-region"]),
  ("editor.wordHighlightBackground", ["bg-region"]),
  ("editor.wordHighlightBorder", ["border-region"]),
  ("editor.wordHighlightStrongBackground", ["bg-active-item"]),
  ("editor.wordHighlightStrongBorder", ["border-mode-line-active"]),
  ("editor.wordHighlightTextBackground", ["bg-region"]),
  ("editor.wordHighlightTextBorder", ["border-region"]),
  ("findMatchBackground", ["bg-search-lazy"]),
  ("findMatchForeground", ["fg-main"]),
  ("findMatchHighlightForeground", ["fg-main"]),
  ("findMatchHighlightBackground", ["bg-search-lazy"]),
  ("findRangeHighlightBackground", ["bg-dim"]),
  ("findMatchBorder", ["border-search-lazy"]),
  ("findMatchHighlightBorder", ["border-search-lazy"]),
  ("findRangeHighlightBorder", ["border-region"]),
  ("search.resultsInfoForeground", ["fg-dim"]),
  ("searchEditor.findMatchBackground", ["bg-search-lazy"]),
  ("searchEditor.findMatchBorder", ["border-search-lazy"]),
  ("searchEditor.textInputBorder", ["border-region"]),
  ("hoverHighlightBackground", ["bg-hover"]),
  ("lineHighlightBackground", ["bg-hl-line"]),
  ("lineHighlightBorder", ["bg-hl-line-intense"]),
  ("editorWatermark.foreground", ["fg-dim"]),
  ("editorUnicodeHighlight.border", ["yellow-warmer"]),
  ("editorUnicodeHighlight.background", ["bg-yellow-subtle"]),
  ("editorLink.activeForeground", ["fg-link"]),
  ("rangeHighlightBackground", ["bg-dim"]),
  ("rangeHighlightBorder", ["border-region"]),
  ("symbolHighlightBackground", ["bg-region"]),
  ("symbolHighlightBorder", ["border-region"]),
  ("editorWhitespace.foreground", ["fg-whitespace"]),
  ("editorIndentGuide.background", ["bg-inactive"]),
  ("editorIndentGuide.background1", ["bg-inactive"]),
  ("editorIndentGuide.background2", ["bg-inactive"]),
  ("editorIndentGuide.background3", ["bg-inactive"]),
  ("editorIndentGuide.background4", ["bg-inactive"]),
  ("editorIndentGuide.background5", ["bg-inactive"]),
  ("editorIndentGuide.background6", ["bg-inactive"]),
  ("editorIndentGuide.activeBackground", ["fg-dim"]),
  ("editorIndentGuide.activeBackground1", ["fg-dim"]),
  ("editorIndentGuide.activeBackground2", ["fg-dim"]),
  ("editorIndentGuide.activeBackground3", ["fg-dim"]),
  ("editorIndentGuide.activeBackground4", ["fg-dim"]),
  ("editorIndentGuide.activeBackground5", ["fg-dim"]),
  ("editorIndentGuide.activeBackground6", ["fg-dim"]),
  ("editorInlayHint.background", ["bg-dim"]),
  ("editorInlayHint.foreground", ["fg-dim"]),
  ("editorInlayHint.typeForeground", ["fg-special-cold"]),
  ("editorInlayHint.typeBackground", ["bg-dim"]),
  ("editorInlayHint.parameterForeground", ["fg-special-warm"]),
  ("editorInlayHint.parameterBackground", ["bg-dim"]),
  ("editorRuler.foreground", ["fg-dim"]),
  ("editor.linkedEditingBackground", ["bg-region"]),
  ("editorCodeLens.foreground", ["fg-dim"]),
  ("editorLightBulb.foreground", ["yellow"]),
  ("editorLightBulbAutoFix.foreground", ["blue"]),
  ("editorLightBulbAi.foreground", ["magenta"]),
  ("editorBracketMatch.background", ["bg-paren-match"]),
  ("editorBracketMatch.border", ["border-mode-line-active"]),
  ("editorBracketHighlight.foreground1", ["red"]),
  ("editorBracketHighlight.foreground2", ["green"]),
  ("editorBracketHighlight.foreground3", ["yellow"]),
  ("editorBracketHighlight.foreground4", ["blue"]),
  ("editorBracketHighlight.foreground5", ["magenta"]),
  ("editorBracketHighlight.foreground6", ["cyan"]),
  ("editorBracketHighlight.unexpectedBracket.foreground", ["red-warmer"]),
  ("editorBracketPairGuide.activeBackground1", ["red"]),
  ("editorBracketPairGuide.activeBackground2", ["green"]),
  ("editorBracketPairGuide.activeBackground3", ["yellow"]),
  ("editorBracketPairGuide.activeBackground4", ["blue"]),
  ("editorBracketPairGuide.activeBackground5", ["magenta"]),
  ("editorBracketPairGuide.activeBackground6", ["cyan"]),
  ("editorBracketPairGuide.background1", ["bg-red-subtle"]),
  ("editorBracketPairGuide.background2", ["bg-green-subtle"]),
  ("editorBracketPairGuide.background3", ["bg-yellow-subtle"]),
  ("editorBracketPairGuide.background4", ["bg-blue-subtle"]),
  ("editorBracketPairGuide.background5", ["bg-magenta-subtle"]),
  ("editorBracketPairGuide.background6", ["bg-cyan-subtle"]),
  ("editor.foldBackground", ["bg-inactive"]),
  ("editor.foldPlaceholderForeground", ["fg-dim"]),
  ("editorOverviewRuler.background", ["bg-dim"]),
  ("editorOverviewRuler.border", ["border-region"]),
  ("editorOverviewRuler.findMatchForeground", ["fg-search-lazy"]),
  ("editorOverviewRuler.rangeHighlightForeground", ["fg-dim"]),
  ("editorOverviewRuler.selectionHighlightForeground", ["fg-dim"]),
  ("editorOverviewRuler.wordHighlightForeground", ["fg-dim"]),
  ("editorOverviewRuler.wordHighlightStrongForeground", ["fg-main"]),
  ("editorOverviewRuler.wordHighlightTextForeground", ["fg-dim"]),
  ("editorOverviewRuler.modifiedForeground", ["yellow-warmer"]),
  ("editorOverviewRuler.addedForeground", ["green-warmer"]),
  ("editorOverviewRuler.deletedForeground", ["red-warmer"]),
  ("editorOverviewRuler.errorForeground", ["red"]),
  ("editorOverviewRuler.warningForeground", ["yellow"]),
  ("editorOverviewRuler.infoForeground", ["blue"]),
  ("editorOverviewRuler.bracketMatchForeground", ["fg-main"]),
  ("editorOverviewRuler.inlineChatInserted", ["green-warmer"]),
  ("editorOverviewRuler.inlineChatRemoved", ["red-warmer"]),
  ("editorError.foreground", ["red"]),
  ("editorError.border", ["red-warmer"]),
  ("editorError.background", ["bg-red-subtle"]),
  ("editorWarning.foreground", ["yellow"]),
  ("editorWarning.border", ["yellow-warmer"]),
  ("editorWarning.background", ["bg-yellow-subtle"]),
  ("editorInfo.foreground", ["blue"]),
  ("editorInfo.border", ["blue-warmer"]),
  ("editorInfo.background", ["bg-blue-subtle"]),
  ("editorHint.foreground", ["cyan"]),
  ("editorHint.border", ["cyan-warmer"]),
  ("problemsErrorIcon.foreground", ["red"]),
  ("problemsWarningIcon.foreground", ["yellow"]),
  ("problemsInfoIcon.foreground", ["blue"]),
  ("editorUnnecessaryCode.border", ["border-region"]),
  ("editorUnnecessaryCode.opacity", ["#00000080"]),
  ("editorGutter.background", ["bg-main"]),
  ("editorGutter.modifiedBackground", ["yellow-warmer"]),
  ("editorGutter.addedBackground", ["green-warmer"]),
  ("editorGutter.deletedBackground", ["red-warmer"]),
  ("editorGutter.commentRangeForeground", ["fg-comment"]),
  ("editorGutter.commentGlyphForeground", ["fg-comment"]),
  ("editorGutter.commentUnresolvedGlyphForeground", ["yellow-warmer"]),
  ("editorGutter.foldingControlForeground", ["fg-dim"]),
  ("editorCommentsWidget.resolvedBorder", ["green-warmer"]),
  ("editorCommentsWidget.unresolvedBorder", ["yellow-warmer"]),
  ("editorCommentsWidget.rangeBackground", ["bg-dim"]),
  ("editorCommentsWidget.rangeActiveBackground", ["bg-active"]),
  ("editorCommentsWidget.replyInputBackground", ["bg-dim"]),
  ("inlineEdit.gutterIndicator.primaryForeground", ["fg-main"]),
  ("inlineEdit.gutterIndicator.primaryBackground", ["bg-main"]),
  ("inlineEdit.gutterIndicator.secondaryForeground", ["fg-dim"]),
  ("inlineEdit.gutterIndicator.secondaryBackground", ["bg-dim"]),
  ("inlineEdit.gutterIndicator.successfulForeground", ["green"]),
  ("inlineEdit.gutterIndicator.successfulBackground", ["bg-green-subtle"]),
  ("inlineEdit.gutterIndicator.background", ["bg-main"]),
  ("inlineEdit.indicator.foreground", ["fg-main"]),
  ("inlineEdit.indicator.background", ["bg-main"]),
  ("inlineEdit.indicator.border", ["border-mode-line-active"]),
  ("inlineEdit.originalBackground", ["bg-dim"]),
  ("inlineEdit.modifiedBackground", ["bg-active-item"]),
  ("inlineEdit.originalChangedLineBackground", ["bg-inactive"]),
  ("inlineEdit.originalChangedTextBackground", ["bg-region"]),
  ("inlineEdit.modifiedChangedLineBackground", ["bg-active"]),
  ("inlineEdit.modifiedChangedTextBackground", ["bg-active-item"]),
  ("inlineEdit.originalBorder", ["border-region"]),
  ("inlineEdit.modifiedBorder", ["border-mode-line-active"]),
  ("inlineEdit.tabWillAcceptBorder", ["border-mode-line-active"]),
  ("inlineEdit.wordReplacementView.background", ["bg-dim"]),
  ("diffEditor.insertedTextBackground", ["bg-green-subtle"]),
  ("diffEditor.insertedTextBorder", ["green-warmer"]),
  ("diffEditor.removedTextBackground", ["bg-red-subtle"]),
  ("diffEditor.removedTextBorder", ["red-warmer"]),
  ("diffEditor.border", ["border-region"]),
  ("diffEditor.diagonalFill", ["bg-inactive"]),
  ("diffEditor.insertedLineBackground", ["bg-green-subtle"]),
  ("diffEditor.removedLineBackground", ["bg-red-subtle"]),
  ("diffEditorGutter.insertedLineBackground", ["bg-green-subtle"]),
  ("diffEditorGutter.removedLineBackground", ["bg-red-subtle"]),
  ("diffEditorOverview.insertedForeground", ["green-warmer"]),
  ("diffEditorOverview.removedForeground", ["red-warmer"]),
  ("diffEditor.unchangedRegionBackground", ["bg-dim"]),
  ("diffEditor.unchangedRegionForeground", ["fg-dim"]),
  ("diffEditor.unchangedRegionShadow", ["bg-dim"]),
  ("diffEditor.unchangedCodeBackground", ["bg-inactive"]),
  ("diffEditor.move.border", ["yellow-warmer"]),
  ("diffEditor.moveActive.border", ["yellow"]),
  ("multiDiffEditor.headerBackground", ["bg-alt"]),
  ("multiDiffEditor.background", ["bg-dim"]),
  ("multiDiffEditor.border", ["border-region"]),
  ("chat.requestBorder", ["border-region"]),
  ("chat.requestBackground", ["bg-dim"]),
  ("chat.slashCommandBackground", ["bg-inactive"]),
  ("chat.slashCommandForeground", ["fg-main"]),
  ("chat.avatarBackground", ["bg-active"]),
  ("chat.avatarForeground", ["fg-active"]),
  ("chat.editedFileForeground", ["fg-special-cold"]),
  ("inlineChat.background", ["bg-dim"]),
  ("inlineChat.foreground", ["fg-main"]),
  ("inlineChat.border", ["border-region"]),
  ("inlineChat.shadow", ["bg-dim"]),
  ("inlineChatInput.border", ["border-region"]),
  ("inlineChatInput.focusBorder", ["border-mode-line-active"]),
  ("inlineChatInput.placeholderForeground", ["fg-dim"]),
  ("inlineChatInput.background", ["bg-dim"]),
  ("inlineChatDiff.inserted", ["bg-green-subtle"]),
  ("inlineChatDiff.removed", ["bg-red-subtle"]),
  ("interactive.activeCodeBorder", ["border-mode-line-active"]),
  ("interactive.inactiveCodeBorder", ["border-mode-line-inactive"]),
  ("editorWidget.foreground", ["fg-main"]),
  ("editorWidget.background", ["bg-dim"]),
  ("editorWidget.border", ["border-region"]),
  ("editorWidget.resizeBorder", ["border-mode-line-active"]),
  ("editorSuggestWidget.background", ["bg-dim"]),
  ("editorSuggestWidget.border", ["border-region"]),
  ("editorSuggestWidget.foreground", ["fg-main"]),
  ("editorSuggestWidget.focusHighlightForeground", ["fg-active"]),
  ("editorSuggestWidget.highlightForeground", ["fg-active"]),
  ("editorSuggestWidget.selectedBackground", ["bg-active-item"]),
  ("editorSuggestWidget.selectedForeground", ["fg-active"]),
  ("editorSuggestWidget.selectedIconForeground", ["fg-active"]),
  ("editorSuggestWidgetStatus.foreground", ["fg-dim"]),
  ("editorHoverWidget.foreground", ["fg-main"]),
  ("editorHoverWidget.background", ["bg-dim"]),
  ("editorHoverWidget.border", ["border-region"]),
  ("editorHoverWidget.highlightForeground", ["fg-active"]),
  ("editorHoverWidget.statusBarBackground", ["bg-alt"]),
  ("editorGhostText.border", ["border-region"]),
  ("editorGhostText.background", ["bg-inactive"]),
  ("editorGhostText.foreground", ["fg-dim"]),
  ("editorStickyScroll.background", ["bg-dim"]),
  ("editorStickyScroll.border", ["border-region"]),
  ("editorStickyScroll.shadow", ["bg-dim"]),
  ("editorStickyScrollHover.background", ["bg-hover"]),
  ("debugExceptionWidget.background", ["bg-red-subtle"]),
  ("debugExceptionWidget.border", ["red-warmer"]),
  ("editorMarkerNavigation.background", ["bg-dim"]),
  ("editorMarkerNavigationError.background", ["bg-red-subtle"]),
  ("editorMarkerNavigationWarning.background", ["bg-yellow-subtle"]),
  ("editorMarkerNavigationInfo.background", ["bg-blue-subtle"]),
  ("editorMarkerNavigationError.headerBackground", ["bg-red-subtle"]),
  ("editorMarkerNavigationWarning.headerBackground", ["bg-yellow-subtle"]),
  ("editorMarkerNavigationInfo.headerBackground", ["bg-blue-subtle"]),
  ("peekView.border", ["border-region"]),
  ("peekViewEditor.background", ["bg-dim"]),
  ("peekViewEditorGutter.background", ["bg-dim"]),
  ("peekViewEditor.matchHighlightBackground", ["bg-search-lazy"]),
  ("peekViewEditor.matchHighlightBorder", ["border-search-lazy"]),
  ("peekViewResult.background", ["bg-dim"]),
  ("peekViewResult.fileForeground", ["fg-special-cold"]),
  ("peekViewResult.lineForeground", ["fg-main"]),
  ("peekViewResult.matchHighlightBackground", ["bg-search-lazy"]),
  ("peekViewResult.selectionBackground", ["bg-active-item"]),
  ("peekViewResult.selectionForeground", ["fg-active"]),
  ("peekViewTitle.background", ["bg-alt"]),
  ("peekViewTitleDescription.foreground", ["fg-dim"]),
  ("peekViewTitleLabel.foreground", ["fg-main"]),
  ("peekViewEditorStickyScroll.background", ["bg-dim"]),
  ("merge.currentHeaderBackground", ["bg-blue-subtle"]),
  ("merge.currentContentBackground", ["bg-blue-subtle"]),
  ("merge.incomingHeaderBackground", ["bg-green-subtle"]),
  ("merge.incomingContentBackground", ["bg-green-subtle"]),
  ("merge.border", ["border-region"]),
  ("merge.commonContentBackground", ["bg-inactive"]),
  ("merge.commonHeaderBackground", ["bg-inactive"]),
  ("editorOverviewRuler.currentContentForeground", ["blue"]),
  ("editorOverviewRuler.incomingContentForeground", ["green"]),
  ("editorOverviewRuler.commonContentForeground", ["fg-dim"]),
  ("editorOverviewRuler.commentForeground", ["fg-comment"]),
  ("editorOverviewRuler.commentUnresolvedForeground", ["yellow-warmer"]),
  ("mergeEditor.change.background", ["bg-inactive"]),
  ("mergeEditor.change.word.background", ["bg-region"]),
  ("mergeEditor.conflict.unhandledUnfocused.border", ["yellow-warmer"]),
  ("mergeEditor.conflict.unhandledFocused.border", ["yellow"]),
  ("mergeEditor.conflict.handledUnfocused.border", ["green-warmer"]),
  ("mergeEditor.conflict.handledFocused.border", ["green"]),
  ("mergeEditor.conflict.handled.minimapOverViewRuler", ["green"]),
  ("mergeEditor.conflict.unhandled.minimapOverViewRuler", ["yellow"]),
  ("mergeEditor.conflictingLines.background", ["bg-inactive"]),
  ("mergeEditor.changeBase.background", ["bg-inactive"]),
  ("mergeEditor.changeBase.word.background", ["bg-region"]),
  ("mergeEditor.conflict.input1.background", ["bg-blue-subtle"]),
  ("mergeEditor.conflict.input2.background", ["bg-green-subtle"]),
  ("panel.background", ["bg-dim"]),
  ("panel.border", ["border-region"]),
  ("panel.dropBorder", ["border-mode-line-active"]),
  ("panelTitle.activeBorder", ["border-mode-line-active"]),
  ("panelTitle.activeForeground", ["fg-main"]),
  ("panelTitle.inactiveForeground", ["fg-dim"]),
  ("panelTitle.border", ["border-region"]),
  ("panelTitleBadge.background", ["bg-active"]),
  ("panelTitleBadge.foreground", ["fg-active"]),
  ("panelInput.border", ["border-region"]),
  ("panelSection.border", ["border-region"]),
  ("panelSection.dropBackground", ["bg-dim"]),
  ("panelSectionHeader.background", ["bg-alt"]),
  ("panelSectionHeader.foreground", ["fg-special-cold"]),
  ("panelStickyScroll.background", ["bg-dim"]),
  ("panelStickyScroll.border", ["border-region"]),
  ("panelStickyScroll.shadow", ["bg-dim"]),
  ("panelSectionHeader.border", ["border-region"]),
  ("outputView.background", ["bg-dim"]),
  ("outputViewStickyScroll.background", ["bg-dim"]),
  ("statusBar.background", ["bg-mode-line-inactive"]),
  ("statusBar.foreground", ["fg-main"]),
  ("statusBar.border", ["border-mode-line-inactive"]),
  ("statusBar.debuggingBackground", ["bg-yellow-subtle"]),
  ("statusBar.debuggingForeground", ["fg-main"]),
  ("statusBar.debuggingBorder", ["yellow-warmer"]),
  ("statusBar.noFolderForeground", ["fg-main"]),
  ("statusBar.noFolderBackground", ["bg-inactive"]),
  ("statusBar.noFolderBorder", ["border-region"]),
  ("statusBarItem.activeBackground", ["bg-active"]),
  ("statusBarItem.hoverForeground", ["fg-main"]),
  ("statusBarItem.hoverBackground", ["bg-hover"]),
  ("statusBarItem.prominentForeground", ["fg-active"]),
  ("statusBarItem.prominentBackground", ["bg-active"]),
  ("statusBarItem.prominentHoverForeground", ["fg-active"]),
  ("statusBarItem.prominentHoverBackground", ["bg-active-item"]),
  ("statusBarItem.remoteBackground", ["bg-blue-subtle"]),
  ("statusBarItem.remoteForeground", ["fg-main"]),
  ("statusBarItem.remoteHoverBackground", ["bg-blue-intense"]),
  ("statusBarItem.remoteHoverForeground", ["fg-main"]),
  ("statusBarItem.errorBackground", ["bg-red-subtle"]),
  ("statusBarItem.errorForeground", ["fg-main"]),
  ("statusBarItem.errorHoverBackground", ["bg-red-intense"]),
  ("statusBarItem.errorHoverForeground", ["fg-main"]),
  ("statusBarItem.warningBackground", ["bg-yellow-subtle"]),
  ("statusBarItem.warningForeground", ["fg-main"]),
  ("statusBarItem.warningHoverBackground", ["bg-yellow-intense"]),
  ("statusBarItem.warningHoverForeground", ["fg-main"]),
  ("statusBarItem.compactHoverBackground", ["bg-hover"]),
  ("statusBarItem.focusBorder", ["border-mode-line-active"]),
  ("statusBar.focusBorder", ["border-mode-line-active"]),
  ("statusBarItem.offlineBackground", ["bg-inactive"]),
  ("statusBarItem.offlineForeground", ["fg-dim"]),
  ("statusBarItem.offlineHoverForeground", ["fg-main"]),
  ("statusBarItem.offlineHoverBackground", ["bg-hover"]),
  ("titleBar.activeBackground", ["bg-mode-line-inactive"]),
  ("titleBar.activeForeground", ["fg-main"]),
  ("titleBar.inactiveBackground", ["bg-inactive"]),
  ("titleBar.inactiveForeground", ["fg-dim"]),
  ("titleBar.border", ["border-mode-line-inactive"]),
  ("menubar.selectionForeground", ["fg-active"]),
  ("menubar.selectionBackground", ["bg-active"]),
  ("menubar.selectionBorder", ["border-mode-line-active"]),
  ("menu.foreground", ["fg-main"]),
  ("menu.background", ["bg-dim"]),
  ("menu.selectionForeground", ["fg-active"]),
  ("menu.selectionBackground", ["bg-active"]),
  ("menu.selectionBorder", ["border-mode-line-active"]),
  ("menu.separatorBackground", ["border-region"]),
  ("menu.border", ["border-region"]),
  ("commandCenter.foreground", ["fg-main"]),
  ("commandCenter.activeForeground", ["fg-active"]),
  ("commandCenter.background", ["bg-dim"]),
  ("commandCenter.activeBackground", ["bg-active"]),
  ("commandCenter.border", ["border-region"]),
  ("commandCenter.inactiveForeground", ["fg-dim"]),
  ("commandCenter.inactiveBorder", ["border-mode-line-inactive"]),
  ("commandCenter.activeBorder", ["border-mode-line-active"]),
  ("commandCenter.debuggingBackground", ["bg-yellow-subtle"]),
  ("notificationCenter.border", ["border-region"]),
  ("notificationCenterHeader.foreground", ["fg-special-cold"]),
  ("notificationCenterHeader.background", ["bg-alt"]),
  ("notificationToast.border", ["border-region"]),
  ("notifications.foreground", ["fg-main"]),
  ("notifications.background", ["bg-dim"]),
  ("notifications.border", ["border-region"]),
  ("notificationLink.foreground", ["fg-link"]),
  ("notificationsErrorIcon.foreground", ["red"]),
  ("notificationsWarningIcon.foreground", ["yellow"]),
  ("notificationsInfoIcon.foreground", ["blue"]),
  ("banner.background", ["bg-inactive"]),
  ("banner.foreground", ["fg-main"]),
  ("banner.iconForeground", ["fg-special-cold"]),
  ("extensionButton.prominentForeground", ["fg-active"]),
  ("extensionButton.prominentBackground", ["bg-active"]),
  ("extensionButton.prominentHoverBackground", ["bg-active-item"]),
  ("extensionButton.background", ["bg-dim"]),
  ("extensionButton.foreground", ["fg-main"]),
  ("extensionButton.hoverBackground", ["bg-hover"]),
  ("extensionButton.separator", ["fg-dim"]),
  ("extensionBadge.remoteBackground", ["bg-blue-subtle"]),
  ("extensionBadge.remoteForeground", ["fg-main"]),
  ("extensionIcon.starForeground", ["yellow"]),
  ("extensionIcon.verifiedForeground", ["green"]),
  ("extensionIcon.preReleaseForeground", ["yellow-warmer"]),
  ("extensionIcon.sponsorForeground", ["magenta"]),
  ("pickerGroup.border", ["border-region"]),
  ("pickerGroup.foreground", ["fg-special-cold"]),
  ("quickInput.background", ["bg-dim"]),
  ("quickInput.foreground", ["fg-main"]),
  ("quickInputList.focusBackground", ["bg-active-item"]),
  ("quickInputList.focusForeground", ["fg-active"]),
  ("quickInputList.focusIconForeground", ["fg-active"]),
  ("quickInputTitle.background", ["bg-alt"]),
  ("keybindingLabel.background", ["bg-dim"]),
  ("keybindingLabel.foreground", ["fg-main"]),
  ("keybindingLabel.border", ["border-region"]),
  ("keybindingLabel.bottomBorder", ["border-region"]),
  ("keybindingTable.headerBackground", ["bg-alt"]),
  ("keybindingTable.rowsBackground", ["bg-inactive"]),
  ("terminal.background", ["bg-main"]),
  ("terminal.border", ["border-region"]),
  ("terminal.foreground", ["fg-main"]),
  ("terminal.ansiBlack", ["bg-dim"]),
  ("terminal.ansiBlue", ["blue"]),
  ("terminal.ansiBrightBlack", ["fg-dim"]),
  ("terminal.ansiBrightBlue", ["blue-intense"]),
  ("terminal.ansiBrightCyan", ["cyan-intense"]),
  ("terminal.ansiBrightGreen", ["green-intense"]),
  ("terminal.ansiBrightMagenta", ["magenta-intense"]),
  ("terminal.ansiBrightRed", ["red-intense"]),
  ("terminal.ansiBrightWhite", ["fg-main-intense"]),
  ("terminal.ansiBrightYellow", ["yellow-intense"]),
  ("terminal.ansiCyan", ["cyan"]),
  ("terminal.ansiGreen", ["green"]),
  ("terminal.ansiMagenta", ["magenta"]),
  ("terminal.ansiRed", ["red"]),
  ("terminal.ansiWhite", ["fg-main"]),
  ("terminal.ansiYellow", ["yellow"]),
  ("terminal.selectionBackground", ["bg-region"]),
  ("terminal.selectionForeground", ["fg-main"]),
  ("terminal.inactiveSelectionBackground", ["bg-inactive"]),
  ("terminal.findMatchBackground", ["bg-search-lazy"]),
  ("terminal.findMatchBorder", ["border-search-lazy"]),
  ("terminal.findMatchHighlightBackground", ["bg-search-lazy"]),
  ("terminal.findMatchHighlightBorder", ["border-search-lazy"]),
  ("terminal.hoverHighlightBackground", ["bg-hover"]),
  ("terminalCursor.background", ["bg-main"]),
  ("terminalCursor.foreground", ["fg-main"]),
  ("terminal.dropBackground", ["bg-dim"]),
  ("terminal.tab.activeBorder", ["border-mode-line-active"]),
  ("terminalCommandDecoration.defaultBackground", ["bg-alt"]),
  ("terminalCommandDecoration.successBackground", ["green-warmer"]),
  ("terminalCommandDecoration.errorBackground", ["red-warmer"]),
  ("terminalOverviewRuler.cursorForeground", ["fg-main"]),
  ("terminalOverviewRuler.findMatchForeground", ["fg-search-lazy"]),
  ("terminalStickyScroll.background", ["bg-dim"]),
  ("terminalStickyScroll.border", ["border-region"]),
  ("terminalStickyScrollHover.background", ["bg-hover"]),
  ("terminal.initialHintForeground", ["fg-dim"]),
  ("terminalOverviewRuler.border", ["border-region"]),
  ("terminalCommandGuide.foreground", ["fg-dim"]),
  ("terminalSymbolIcon.aliasForeground", ["fg-special-warm"]),
  ("terminalSymbolIcon.flagForeground", ["fg-special-cold"]),
  ("debugToolBar.background", ["bg-dim"]),
  ("debugToolBar.border", ["border-region"]),
  ("editor.stackFrameHighlightBackground", ["bg-yellow-subtle"]),
  ("editor.focusedStackFrameHighlightBackground", ["bg-yellow-intense"]),
  ("editor.inlineValuesForeground", ["fg-special-cold"]),
  ("editor.inlineValuesBackground", ["bg-dim"]),
  ("debugView.exceptionLabelForeground", ["fg-main"]),
  ("debugView.exceptionLabelBackground", ["bg-red-subtle"]),
  ("debugView.stateLabelForeground", ["fg-main"]),
  ("debugView.stateLabelBackground", ["bg-alt"]),
  ("debugView.valueChangedHighlight", ["yellow-warmer"]),
  ("debugTokenExpression.name", ["fg-special-cold"]),
  ("debugTokenExpression.value", ["fg-main"]),
  ("debugTokenExpression.string", ["blue-cooler"]),
  ("debugTokenExpression.boolean", ["magenta-warmer"]),
  ("debugTokenExpression.number", ["blue"]),
  ("debugTokenExpression.error", ["red"]),
  ("debugTokenExpression.type", ["magenta"]),
  ("testing.runAction", ["fg-main"]),
  ("testing.iconErrored", ["red"]),
  ("testing.iconFailed", ["red-warmer"]),
  ("testing.iconPassed", ["green"]),
  ("testing.iconQueued", ["fg-dim"]),
  ("testing.iconUnset", ["fg-dim"]),
  ("testing.iconSkipped", ["yellow"]),
  ("testing.iconErrored.retired", ["red"]),
  ("testing.iconFailed.retired", ["red-warmer"]),
  ("testing.iconPassed.retired", ["green"]),
  ("testing.iconQueued.retired", ["fg-dim"]),
  ("testing.iconUnset.retired", ["fg-dim"]),
  ("testing.iconSkipped.retired", ["yellow"]),
  ("testing.peekBorder", ["border-region"]),
  ("testing.peekHeaderBackground", ["bg-alt"]),
  ("testing.message.error.lineBackground", ["bg-red-subtle"]),
  ("testing.message.info.decorationForeground", ["blue"]),
  ("testing.message.info.lineBackground", ["bg-blue-subtle"]),
  ("testing.messagePeekBorder", ["border-region"]),
  ("testing.messagePeekHeaderBackground", ["bg-alt"]),
  ("testing.coveredBackground", ["bg-green-subtle"]),
  ("testing.coveredBorder", ["green-warmer"]),
  ("testing.coveredGutterBackground", ["green-warmer"]),
  ("testing.uncoveredBranchBackground", ["bg-yellow-subtle"]),
  ("testing.uncoveredBackground", ["bg-red-subtle"]),
  ("testing.uncoveredBorder", ["red-warmer"]),
  ("testing.uncoveredGutterBackground", ["red-warmer"]),
  ("testing.coverCountBadgeBackground", ["bg-inactive"]),
  ("testing.coverCountBadgeForeground", ["fg-main"]),
  ("testing.message.error.badgeBackground", ["bg-red-subtle"]),
  ("testing.message.error.badgeBorder", ["red-warmer"]),
  ("testing.message.error.badgeForeground", ["fg-main"]),
  ("welcomePage.background", ["bg-main"]),
  ("welcomePage.progress.background", ["bg-dim"]),
  ("welcomePage.progress.foreground", ["fg-main"]),
  ("welcomePage.tileBackground", ["bg-dim"]),
  ("welcomePage.tileHoverBackground", ["bg-hover"]),
  ("welcomePage.tileBorder", ["border-region"]),
  ("walkThrough.embeddedEditorBackground", ["bg-dim"]),
  ("walkthrough.stepTitle.foreground", ["fg-special-cold"]),
  ("gitDecoration.addedResourceForeground", ["green"]),
  ("gitDecoration.modifiedResourceForeground", ["yellow"]),
  ("gitDecoration.deletedResourceForeground", ["red"]),
  ("gitDecoration.renamedResourceForeground", ["blue"]),
  ("gitDecoration.stageModifiedResourceForeground", ["yellow-warmer"]),
  ("gitDecoration.stageDeletedResourceForeground", ["red-warmer"]),
  ("gitDecoration.untrackedResourceForeground", ["cyan"]),
  ("gitDecoration.ignoredResourceForeground", ["fg-dim"]),
  ("gitDecoration.conflictingResourceForeground", ["magenta-warmer"]),
  ("gitDecoration.submoduleResourceForeground", ["fg-special-warm"]),
  ("git.blame.editorDecorationForeground", ["fg-dim"]),
  ("scmGraph.historyItemHoverLabelForeground", ["fg-main"]),
  ("scmGraph.foreground1", ["red"]),
  ("scmGraph.foreground2", ["green"]),
  ("scmGraph.foreground3", ["yellow"]),
  ("scmGraph.foreground4", ["blue"]),
  ("scmGraph.foreground5", ["magenta"]),
  ("scmGraph.historyItemHoverAdditionsForeground", ["green"]),
  ("scmGraph.historyItemHoverDeletionsForeground", ["red"]),
  ("scmGraph.historyItemRefColor", ["fg-main"]),
  ("scmGraph.historyItemRemoteRefColor", ["fg-special-cold"]),
  ("scmGraph.historyItemBaseRefColor", ["fg-special-warm"]),
  ("scmGraph.historyItemHoverDefaultLabelForeground", ["fg-main"]),
  ("scmGraph.historyItemHoverDefaultLabelBackground", ["bg-dim"]),
  ("settings.headerForeground", ["fg-special-cold"]),
  ("settings.modifiedItemIndicator", ["yellow-warmer"]),
  ("settings.dropdownBackground", ["bg-dim"]),
  ("settings.dropdownForeground", ["fg-main"]),
  ("settings.dropdownBorder", ["border-region"]),
  ("settings.dropdownListBorder", ["border-region"]),
  ("settings.checkboxBackground", ["bg-inactive"]),
  ("settings.checkboxForeground", ["fg-main"]),
  ("settings.checkboxBorder", ["border-region"]),
  ("settings.rowHoverBackground", ["bg-hover"]),
  ("settings.textInputBackground", ["bg-dim"]),
  ("settings.textInputForeground", ["fg-main"]),
  ("settings.textInputBorder", ["border-region"]),
  ("settings.numberInputBackground", ["bg-dim"]),
  ("settings.numberInputForeground", ["fg-main"]),
  ("settings.numberInputBorder", ["border-region"]),
  ("settings.focusedRowBackground", ["bg-active"]),
  ("settings.focusedRowBorder", ["border-mode-line-active"]),
  ("settings.headerBorder", ["border-region"]),
  ("settings.sashBorder", ["border-region"]),
  ("settings.settingsHeaderHoverForeground", ["fg-main"]),
  ("breadcrumb.foreground", ["fg-dim"]),
  ("breadcrumb.background", ["bg-main"]),
  ("breadcrumb.focusForeground", ["fg-main"]),
  ("breadcrumb.activeSelectionForeground", ["fg-active"]),
  ("breadcrumbPicker.background", ["bg-dim"]),
  ("editor.snippetTabstopHighlightBackground", ["bg-blue-subtle"]),
  ("editor.snippetTabstopHighlightBorder", ["blue-warmer"]),
  ("editor.snippetFinalTabstopHighlightBackground", ["bg-green-subtle"]),
  ("editor.snippetFinalTabstopHighlightBorder", ["green-warmer"]),
  ("symbolIcon.arrayForeground", ["blue"]),
  ("symbolIcon.booleanForeground", ["magenta-warmer"]),
  ("symbolIcon.classForeground", ["yellow-warmer"]),
  ("symbolIcon.colorForeground", ["fg-main"]),
  ("symbolIcon.constantForeground", ["cyan-cooler"]),
  ("symbolIcon.constructorForeground", ["red"]),
  ("symbolIcon.enumeratorForeground", ["yellow"]),
  ("symbolIcon.enumeratorMemberForeground", ["yellow"]),
  ("symbolIcon.eventForeground", ["magenta"]),
  ("symbolIcon.fieldForeground", ["fg-special-mild"]),
  ("symbolIcon.fileForeground", ["fg-main"]),
  ("symbolIcon.folderForeground", ["fg-main"]),
  ("symbolIcon.functionForeground", ["red"]),
  ("symbolIcon.interfaceForeground", ["yellow-warmer"]),
  ("symbolIcon.keyForeground", ["fg-special-mild"]),
  ("symbolIcon.keywordForeground", ["magenta-warmer"]),
  ("symbolIcon.methodForeground", ["red"]),
  ("symbolIcon.moduleForeground", ["blue"]),
  ("symbolIcon.namespaceForeground", ["blue"]),
  ("symbolIcon.nullForeground", ["magenta-warmer"]),
  ("symbolIcon.numberForeground", ["blue"]),
  ("symbolIcon.objectForeground", ["yellow-warmer"]),
  ("symbolIcon.operatorForeground", ["magenta-warmer"]),
  ("symbolIcon.packageForeground", ["blue"]),
  ("symbolIcon.propertyForeground", ["fg-special-cold"]),
  ("symbolIcon.referenceForeground", ["fg-special-mild"]),
  ("symbolIcon.snippetForeground", ["green"]),
  ("symbolIcon.stringForeground", ["blue-cooler"]),
  ("symbolIcon.structForeground", ["yellow-warmer"]),
  ("symbolIcon.textForeground", ["fg-main"]),
  ("symbolIcon.typeParameterForeground", ["magenta"]),
  ("symbolIcon.unitForeground", ["fg-special-mild"]),
  ("symbolIcon.variableForeground", ["fg-main"]),
  ("debugIcon.breakpointForeground", ["red"]),
  ("debugIcon.breakpointDisabledForeground", ["red-warmer"]),
  ("debugIcon.breakpointUnverifiedForeground", ["fg-dim"]),
  ("debugIcon.breakpointCurrentStackframeForeground", ["yellow"]),
  ("debugIcon.breakpointStackframeForeground", ["yellow-warmer"]),
  ("debugIcon.startForeground", ["green"]),
  ("debugIcon.pauseForeground", ["yellow"]),
  ("debugIcon.stopForeground", ["red"]),
  ("debugIcon.disconnectForeground", ["red-warmer"]),
  ("debugIcon.restartForeground", ["green"]),
  ("debugIcon.stepOverForeground", ["blue"]),
  ("debugIcon.stepIntoForeground", ["blue-warmer"]),
  ("debugIcon.stepOutForeground", ["blue-cooler"]),
  ("debugIcon.continueForeground", ["green"]),
  ("debugIcon.stepBackForeground", ["cyan"]),
  ("debugConsole.infoForeground", ["blue"]),
  ("debugConsole.warningForeground", ["yellow"]),
  ("debugConsole.errorForeground", ["red"]),
  ("debugConsole.sourceForeground", ["fg-special-cold"]),
  ("debugConsoleInputIcon.foreground", ["fg-main"]),
  ("notebook.editorBackground", ["bg-main"]),
  ("notebook.cellBorderColor", ["border-region"]),
  ("notebook.cellHoverBackground", ["bg-hover"]),
  ("notebook.cellInsertionIndicator", ["border-mode-line-active"]),
  ("notebook.cellStatusBarItemHoverBackground", ["bg-hover"]),
  ("notebook.cellToolbarSeparator", ["border-region"]),
  ("notebook.cellEditorBackground", ["bg-main"]),
  ("notebook.focusedCellBackground", ["bg-inactive"]),
  ("notebook.focusedCellBorder", ["border-mode-line-active"]),
  ("notebook.focusedEditorBorder", ["border-mode-line-active"]),
  ("notebook.inactiveFocusedCellBorder", ["border-mode-line-inactive"]),
  ("notebook.inactiveSelectedCellBorder", ["border-mode-line-inactive"]),
  ("notebook.outputContainerBackgroundColor", ["bg-dim"]),
  ("notebook.outputContainerBorderColor", ["border-region"]),
  ("notebook.selectedCellBackground", ["bg-active"]),
  ("notebook.selectedCellBorder", ["border-mode-line-active"]),
  ("notebook.symbolHighlightBackground", ["bg-region"]),
  ("notebookScrollbarSlider.activeBackground", ["bg-scroll-active"]),
  ("notebookScrollbarSlider.background", ["bg-scroll"]),
  ("notebookScrollbarSlider.hoverBackground", ["bg-scroll-hover"]),
  ("notebookStatusErrorIcon.foreground", ["red"]),
  ("notebookStatusRunningIcon.foreground", ["blue"]),
  ("notebookStatusSuccessIcon.foreground", ["green"]),
  ("notebookEditorOverviewRuler.runningCellForeground", ["blue"]),
  ("charts.foreground", ["fg-main"]),
  ("charts.lines", ["fg-dim"]),
  ("charts.red", ["red"]),
  ("charts.blue", ["blue"]),
  ("charts.yellow", ["yellow"]),
  ("charts.orange", ["red-warmer"]),
  ("charts.green", ["green"]),
  ("charts.purple", ["magenta"]),
  ("chart.line", ["fg-dim"]),
  ("chart.axis", ["fg-dim"]),
  ("chart.guide", ["fg-dim"]),
  ("ports.iconRunningProcessForeground", ["green"]),
  ("commentsView.resolvedIcon", ["green"]),
  ("commentsView.unresolvedIcon", ["yellow"]),
  ("actionBar.toggledBackground", ["bg-active"]),
  ("simpleFindWidget.sashBorder", ["border-region"]),
  ("gauge.background", ["bg-inactive"]),
  ("gauge.foreground", ["fg-main"]),
  ("gauge.border", ["border-region"]),
  ("gauge.warningBackground", ["bg-yellow-subtle"]),
  ("gauge.warningForeground", ["fg-main"]),
  ("gauge.errorBackground", ["bg-red-subtle"]),
  ("gauge.errorForeground", ["fg-main"]),
  ("extensionColors", ["bg-main"])]

/-- `TEXTMATE_SCOPE_MAPPINGS`: scope to palette-color-name list, in source order. -/
def TEXTMATE_SCOPE_MAPPINGS : List (String × List String) := [
  ("comment", ["fg-dim"]),
  ("punctuation.definition.comment", ["fg-dim"]),
  ("string", ["blue-warmer"]),
  ("string.quoted", ["blue-warmer"]),
  ("keyword", ["magenta-cooler"]),
  ("storage", ["magenta-warmer"]),
  ("variable", ["cyan"]),
  ("variable.other.constant", ["cyan-cooler"]),
  ("variable.language", ["cyan"]),
  ("entity.name.function", ["magenta"]),
  ("support.function", ["magenta"]),
  ("entity.name.type", ["cyan-cooler"]),
  ("entity.other.inherited-class", ["cyan-cooler"]),
  ("entity.name.tag", ["green"]),
  ("markup.heading", ["green"]),
  ("support.type", ["cyan-cooler"]),
  ("support.class", ["cyan-cooler"]),
  ("constant.numeric", ["fg-main"]),
  ("constant.language", ["blue-cooler"]),
  ("support.constant", ["blue-cooler"]),
  ("markup.inline.raw", ["cyan"]),
  ("markup.fenced_code", ["cyan"]),
  ("invalid", ["red-warmer"]),
  ("message.error", ["red-warmer"]),
  ("markup.changed", ["yellow"]),
  ("meta.diff.header", ["yellow"]),
  ("markup.inserted", ["green-warmer"]),
  ("meta.diff.header.to-file", ["green-warmer"]),
  ("markup.deleted", ["red-cooler"]),
  ("meta.diff.header.from-file", ["red-cooler"]),
  ("markup.italic", ["magenta-cooler"]),
  ("markup.bold", ["fg-main-intense"]),
  ("punctuation.definition.bold", ["fg-main-intense"]),
  ("meta.selector", ["blue-intense"]),
  ("meta.object-literal.key", ["blue-intense"]),
  ("meta.property-name", ["fg-special-cold"]),
  ("entity.name.section", ["fg-special-cold"]),
  ("support.variable", ["fg-special-mild"]),
  ("variable.parameter", ["fg-special-mild"]),
  ("entity.other.attribute-name", ["fg-special-mild"]),
  ("punctuation", ["fg-main"]),
  ("delimiter", ["fg-main"]),
  ("operator", ["fg-main"]),
  ("bracket", ["fg-main"]),
  ("builtin", ["magenta-warmer"]),
  ("docmarkup", ["magenta-faint"]),
  ("docstring", ["green-faint"]),
  ("preprocessor", ["red-cooler"]),
  ("rx-backslash", ["magenta"]),
  ("rx-construct", ["green-cooler"])]

/-- `THEME_SPECIFIC_OVERRIDES`: per-scope, per-theme redirections of the
source color name. -/
def THEME_SPECIFIC_OVERRIDES : List (String × List (String × String)) := [
  ("comment", [("default", "fg-dim"), ("modus-operandi-tinted", "red-faint"),
    ("modus-vivendi-tinted", "red-faint"),
    ("modus-operandi-deuteranopia", "blue-faint"),
    ("modus-vivendi-deuteranopia", "blue-faint"),
    ("modus-operandi-tritanopia", "magenta-faint"),
    ("modus-vivendi-tritanopia", "magenta-faint")]),
  ("keyword", [("default", "magenta-cooler"),
    ("modus-operandi-deuteranopia", "blue-intense"),
    ("modus-vivendi-deuteranopia", "blue-intense"),
    ("modus-operandi-tritanopia", "magenta-intense"),
    ("modus-vivendi-tritanopia", "magenta-intense")]),
  ("string", [("default", "blue-warmer"),
    ("modus-operandi-deuteranopia", "cyan"),
    ("modus-vivendi-deuteranopia", "cyan"),
    ("modus-operandi-tritanopia", "blue-cooler"),
    ("modus-vivendi-tritanopia", "blue-cooler")]),
  ("entity.name.function", [("default", "magenta"),
    ("modus-operandi-deuteranopia", "blue"),
    ("modus-vivendi-deuteranopia", "blue"),
    ("modus-operandi-tritanopia", "magenta-intense"),
    ("modus-vivendi-tritanopia", "magenta-intense")]),
  ("entity.name.type", [("default", "cyan-cooler"),
    ("modus-operandi-deuteranopia", "blue-cooler"),
    ("modus-vivendi-deuteranopia", "blue-cooler"),
    ("modus-operandi-tritanopia", "cyan-cooler"),
    ("modus-vivendi-tritanopia", "cyan-cooler")])]

/-- The loop of `generateTheme` over `VS_CODE_UI_MAPPINGS`: for each entry
whose color-name array is non-empty, resolve its first name; the first
failure throws out of the loop. -/
def buildUIColors (p : IColorPalette) (themeId : String) :
    List (String × List String) → Except ModusThemeError (List (String × String))
  | [] => Except.ok []
  | (k, cs) :: rest =>
    match cs with
    | [] => buildUIColors p themeId rest
    | c :: _ => do
      let col ← getColor p themeId c
      let r ← buildUIColors p themeId rest
      pure ((k, col) :: r)

/-- `ThemeGenerator.processCommentTokens`: the comment token style, using
the per-theme override chain `commentOverrides[themeId] ||
commentOverrides['default'] || 'fg-dim'`. -/
def processCommentTokens (p : IColorPalette) (themeId : String)
    (italicComments : Bool) : Except ModusThemeError ITokenStyle := do
  let commentOverrides := (List.lookup "comment" THEME_SPECIFIC_OVERRIDES).getD []
  let colorName := jsOr (lookupA themeId commentOverrides)
    (jsOr (lookupA "default" commentOverrides) "fg-dim")
  let commentColor ← getColor p themeId colorName
  pure { scope := ["comment", "punctuation.definition.comment"],
         foreground := some commentColor,
         fontStyle := if italicComments then some "italic" else none }

/-- The color-name choice of the scope loop of `generateTheme`: the
per-theme override, else the override table's default, else the first entry
of the scope's color-name array, else nothing. -/
def pickColorName (themeId scope : String) (colorNames : List String) :
    Option String :=
  let ov := List.lookup scope THEME_SPECIFIC_OVERRIDES
  let byId := match ov with
    | some m => match lookupA themeId m with
      | some v => if v = "" then none else some v
      | none => none
    | none => none
  match byId with
  | some v => some v
  | none =>
    let byDefault := match ov with
      | some m => match lookupA "default" m with
        | some v => if v = "" then none else some v
        | none => none
      | none => none
    match byDefault with
    | some v => some v
    | none =>
      match colorNames with
      | c :: _ => some c
      | [] => none

/-- `scopesByColor.get(colorName)!.push(scope)` with first-seen key order:
append to the group when the color name is present, start a new group at the
end otherwise. -/
def groupAdd (m : List (String × List String)) (k scope : String) :
    List (String × List String) :=
  if m.any (fun e => e.1 = k) then
    m.map (fun e => if e.1 = k then (e.1, e.2 ++ [scope]) else e)
  else
    m ++ [(k, [scope])]

/-- The scope loop of `generateTheme`: group the TextMate scopes (comment
scopes excluded) by their chosen color name, in insertion order. -/
def groupScopes (themeId : String) (mappings : List (String × List String)) :
    List (String × List String) :=
  mappings.foldl
    (fun acc e =>
      if e.1 = "comment" || e.1 = "punctuation.definition.comment" then acc
      else
        match pickColorName themeId e.1 e.2 with
        | some colorName => groupAdd acc colorName e.1
        | none => acc)
    []

/-- The token-color loop of `generateTheme`: one token style per color
group, bold when `boldKeywords` is set and the color is one of the two
magenta keyword colors (an empty font style becomes `undefined`). -/
def buildGroupTokens (p : IColorPalette) (themeId : String) (boldKeywords : Bool) :
    List (String × List String) → Except ModusThemeError (List ITokenStyle)
  | [] => Except.ok []
  | (colorName, scopes) :: rest => do
    let foreground ← getColor p themeId colorName
    let fontStyle :=
      if boldKeywords && (colorName = "magenta-cooler" || colorName = "magenta-warmer")
      then some "bold" else none
    let r ← buildGroupTokens p themeId boldKeywords rest
    pure (({ scope := scopes, foreground := some foreground,
             fontStyle := fontStyle } : ITokenStyle) :: r)

/-- `ThemeGenerator.generateTheme`: validate the inputs, resolve every UI
mapping entry, build the comment token and the grouped TextMate tokens, and
assemble the theme.  Any failure (a validator error or an unresolvable
color) escapes to the catch block and the whole call fails. -/
def generateTheme (palette : IColorPalette) (definition : IThemeDefinition)
    (config : IExtensionConfiguration) : Except ModusThemeError IVSCodeTheme := do
  let _ ← validateThemeDefinition definition
  let uiColors ← buildUIColors palette definition.id VS_CODE_UI_MAPPINGS
  let commentToken ← processCommentTokens palette definition.id config.italicComments
  let groups := groupScopes definition.id TEXTMATE_SCOPE_MAPPINGS
  let groupTokens ← buildGroupTokens palette definition.id config.boldKeywords groups
  pure { name := definition.name,
         type := definition.type,
         colors := uiColors,
         tokenColors := commentToken :: groupTokens,
         semanticHighlighting := config.useSemanticHighlighting }

/-- The palette invariant of the specification's data model: every key of
both maps is a non-empty string and every direct value is a 6-digit hex
color. -/
def PaletteInv (p : IColorPalette) : Prop :=
  (∀ e ∈ p.colors, e.1 ≠ "" ∧ isHexColor e.2 = true) ∧
  (∀ e ∈ p.semantics, e.1 ≠ "")

instance : DecidablePred PaletteInv := fun p => by
  unfold PaletteInv
  infer_instance

/-! ## Helper lemmas -/

theorem resolveColor_empty_name (p : IColorPalette) : resolveColor "" p = none := by
  simp [resolveColor]

theorem resolveLoop_targets_none {p : IColorPalette}
    (hall : ∀ e ∈ p.semantics, lookupA e.2 p.colors = (none : Option String)) :
    ∀ visited current, resolveLoop p visited current = none := by
  intro visited current
  induction visited, current using resolveLoop.induct p with
  | case1 visited current hnone => rw [resolveLoop.eq_def, hnone]
  | case2 visited current nxt hsem hvis =>
    rw [resolveLoop.eq_def, hsem]
    exact dif_pos hvis
  | case3 visited current nxt hsem hvis hcol =>
    exfalso
    rw [hall _ (lookupA_some_mem_pair hsem)] at hcol
    simp at hcol
  | case4 visited current nxt hsem hvis hcol ih =>
    rw [resolveLoop.eq_def, hsem]
    simp [hvis, hcol, ih]

theorem resolveLoop_none_or_from_colors (p : IColorPalette) :
    ∀ visited current, resolveLoop p visited current = none ∨
      ∃ k v, lookupA k p.colors = some v ∧ resolveLoop p visited current = some v := by
  intro visited current
  induction visited, current using resolveLoop.induct p with
  | case1 visited current hnone => left; rw [resolveLoop.eq_def, hnone]
  | case2 visited current nxt hsem hvis =>
    left
    rw [resolveLoop.eq_def, hsem]
    exact dif_pos hvis
  | case3 visited current nxt hsem hvis hcol =>
    right
    obtain ⟨v, hv⟩ := Option.isSome_iff_exists.mp hcol
    refine ⟨nxt, v, hv, ?_⟩
    rw [resolveLoop.eq_def, hsem]
    simp [hvis, hcol, hv]
  | case4 visited current nxt hsem hvis hcol ih =>
    have hstep : resolveLoop p visited current = resolveLoop p (current :: visited) nxt := by
      rw [resolveLoop.eq_def, hsem]
      simp [hvis, hcol]
    rw [hstep]
    exact ih

theorem mapSet_forall {P : String × String → Prop} {m : List (String × String)}
    {k v : String} (hm : ∀ e ∈ m, P e) (hkv : P (k, v)) :
    ∀ e ∈ mapSet m k v, P e := by
  intro e he
  unfold mapSet at he
  by_cases hs : (lookupA k m).isSome
  · rw [if_pos hs] at he
    obtain ⟨e0, he0, heq⟩ := List.mem_map.mp he
    by_cases h1 : e0.1 = k
    · rw [if_pos h1] at heq
      exact heq ▸ hkv
    · rw [if_neg h1] at heq
      exact heq ▸ hm e0 he0
  · rw [if_neg hs] at he
    rcases List.mem_append.mp he with h | h
    · exact hm e h
    · rw [List.mem_singleton.mp h]
      exact hkv

theorem colorsFold_inv (l : List (String × String)) (acc : List (String × String))
    (hacc : ∀ e ∈ acc, e.1 ≠ "" ∧ isHexColor e.2 = true) :
    ∀ e ∈ l.foldl
        (fun m e => if e.1 != "" && isHexColor e.2 then mapSet m e.1 e.2 else m) acc,
      e.1 ≠ "" ∧ isHexColor e.2 = true := by
  induction l generalizing acc with
  | nil => simpa using hacc
  | cons a t ih =>
    simp only [List.foldl_cons]
    by_cases hg : (a.1 != "" && isHexColor a.2) = true
    · rw [if_pos hg]
      simp only [Bool.and_eq_true, bne_iff_ne, ne_eq] at hg
      exact ih _ (mapSet_forall hacc ⟨hg.1, hg.2⟩)
    · rw [if_neg hg]
      exact ih _ hacc

theorem semFold_inv (l : List (String × String)) :
    ∀ acc, (∀ e ∈ l, e.1 ≠ "") → (∀ e ∈ acc, e.1 ≠ "") →
      ∀ e ∈ l.foldl
          (fun m e => if startsWithHash e.2 then m else mapSet m e.1 e.2) acc,
        e.1 ≠ "" := by
  induction l with
  | nil => intro acc _ hacc; simpa using hacc
  | cons a t ih =>
    intro acc hl hacc
    simp only [List.foldl_cons]
    have hts : ∀ e ∈ t, e.1 ≠ "" := fun e he => hl e (List.mem_cons_of_mem _ he)
    by_cases hg : startsWithHash a.2 = true
    · rw [if_pos hg]
      exact ih acc hts hacc
    · rw [if_neg hg]
      exact ih _ hts
        (mapSet_forall (P := fun e => e.1 ≠ "") hacc (hl a (List.mem_cons_self _ _)))

theorem stringMk_ne_empty {l : List Char} (h : l ≠ []) : String.mk l ≠ "" := by
  intro he
  apply h
  simpa using congrArg String.data he

theorem matchSemantic_name_ne {l : List Char} {n t : String} {r : List Char}
    (h : matchSemantic l = some (n, t, r)) : n ≠ "" := by
  cases l with
  | nil => simp [matchSemantic] at h
  | cons c r0 =>
    simp only [matchSemantic] at h
    split_ifs at h with hc h1 h2 h3
    split at h
    · simp only [Option.some.injEq, Prod.mk.injEq] at h
      rw [← h.1]
      exact stringMk_ne_empty (by simpa [List.isEmpty_iff] using h1)
    · exact Option.noConfusion h

theorem scanSemantic_names_ne (l : List Char) : ∀ e ∈ scanSemantic l, e.1 ≠ "" := by
  induction l with
  | nil => simp [scanSemantic]
  | cons c rest ih =>
    intro e he
    rw [scanSemantic] at he
    cases hm : matchSemantic (c :: rest) with
    | none =>
      rw [hm] at he
      exact ih e he
    | some nvr =>
      obtain ⟨n, v, r⟩ := nvr
      rw [hm] at he
      rcases List.mem_cons.mp he with hh | hh
      · rw [hh]
        exact matchSemantic_name_ne hm
      · exact ih e hh

theorem applyOverridesLoop_inv (ov : List (String × String)) :
    ∀ colors semantics r, (∀ e ∈ colors, e.1 ≠ "" ∧ isHexColor e.2 = true) →
      (∀ e ∈ semantics, e.1 ≠ "") →
      applyOverridesLoop colors semantics ov = Except.ok r →
      (∀ e ∈ r.1, e.1 ≠ "" ∧ isHexColor e.2 = true) ∧ (∀ e ∈ r.2, e.1 ≠ "") := by
  induction ov with
  | nil =>
    intro colors semantics r hc hs h
    simp only [applyOverridesLoop, Except.ok.injEq] at h
    rw [← h]
    exact ⟨hc, hs⟩
  | cons a t ih =>
    intro colors semantics r hc hs h
    obtain ⟨k, v⟩ := a
    simp only [applyOverridesLoop] at h
    by_cases h1 : k = ""
    · rw [if_pos h1] at h
      exact Except.noConfusion h
    · rw [if_neg h1] at h
      by_cases h2 : v = ""
      · rw [if_pos h2] at h
        exact Except.noConfusion h
      · rw [if_neg h2] at h
        by_cases h3 : startsWithHash v = true
        · rw [if_pos h3] at h
          by_cases h4 : isHexColor v = true
          · rw [if_pos h4] at h
            exact ih _ _ _ (mapSet_forall hc ⟨h1, h4⟩) hs h
          · rw [if_neg h4] at h
            exact ih _ _ _ hc hs h
        · rw [if_neg h3] at h
          exact ih _ _ _ hc (mapSet_forall (P := fun e => e.1 ≠ "") hs h1) h

theorem applyOverridesLoop_ok (ov : List (String × String)) :
    ∀ colors semantics, (∀ e ∈ ov, e.1 ≠ "" ∧ e.2 ≠ "") →
      ∃ r, applyOverridesLoop colors semantics ov = Except.ok r := by
  induction ov with
  | nil => intro colors semantics _; exact ⟨(colors, semantics), rfl⟩
  | cons a t ih =>
    intro colors semantics h
    obtain ⟨k, v⟩ := a
    have hk : k ≠ "" := (h (k, v) (List.mem_cons_self _ _)).1
    have hv : v ≠ "" := (h (k, v) (List.mem_cons_self _ _)).2
    have ht : ∀ e ∈ t, e.1 ≠ "" ∧ e.2 ≠ "" := fun e he => h e (List.mem_cons_of_mem _ he)
    simp only [applyOverridesLoop, if_neg hk, if_neg hv]
    by_cases hh : startsWithHash v = true
    · rw [if_pos hh]
      by_cases hx : isHexColor v = true
      · rw [if_pos hx]
        exact ih _ _ ht
      · rw [if_neg hx]
        exact ih _ _ ht
    · rw [if_neg hh]
      exact ih _ _ ht

theorem applyOverridesLoop_filter (ov : List (String × String)) :
    ∀ colors semantics, (∀ e ∈ ov, e.1 ≠ "" ∧ e.2 ≠ "") →
      applyOverridesLoop colors semantics ov =
        applyOverridesLoop colors semantics
          (ov.filter fun e => !startsWithHash e.2 || isHexColor e.2) := by
  induction ov with
  | nil => intro colors semantics _; rfl
  | cons a t ih =>
    intro colors semantics h
    obtain ⟨k, v⟩ := a
    have hk : k ≠ "" := (h (k, v) (List.mem_cons_self _ _)).1
    have hv : v ≠ "" := (h (k, v) (List.mem_cons_self _ _)).2
    have ht : ∀ e ∈ t, e.1 ≠ "" ∧ e.2 ≠ "" := fun e he => h e (List.mem_cons_of_mem _ he)
    by_cases hh : startsWithHash v = true
    · by_cases hx : isHexColor v = true
      · rw [show List.filter (fun e => !startsWithHash e.2 || isHexColor e.2) ((k, v) :: t) =
            (k, v) :: List.filter (fun e => !startsWithHash e.2 || isHexColor e.2) t from by
              simp [List.filter, hh, hx]]
        simp only [applyOverridesLoop, if_neg hk, if_neg hv, if_pos hh, if_pos hx]
        exact ih _ _ ht
      · rw [show List.filter (fun e => !startsWithHash e.2 || isHexColor e.2) ((k, v) :: t) =
            List.filter (fun e => !startsWithHash e.2 || isHexColor e.2) t from by
              simp [List.filter, hh, hx]]
        simp only [applyOverridesLoop, if_neg hk, if_neg hv, if_pos hh, if_neg hx]
        exact ih _ _ ht
    · rw [show List.filter (fun e => !startsWithHash e.2 || isHexColor e.2) ((k, v) :: t) =
          (k, v) :: List.filter (fun e => !startsWithHash e.2 || isHexColor e.2) t from by
            simp [List.filter, hh]]
      simp only [applyOverridesLoop, if_neg hk, if_neg hv, if_neg hh]
      exact ih _ _ ht

theorem buildUIColors_error_of_mem (p : IColorPalette) (tid : String)
    {k c : String} {cs : List String} :
    ∀ l : List (String × List String), (k, c :: cs) ∈ l → resolveColor c p = none →
      ∃ e, buildUIColors p tid l = Except.error e := by
  intro l
  induction l with
  | nil => intro h _; simp at h
  | cons a t ih =>
    intro hmem hfail
    obtain ⟨k2, cs2⟩ := a
    rcases List.mem_cons.mp hmem with he | hmt
    · injection he with hk2 hcs2
      subst hk2
      subst hcs2
      refine ⟨ModusThemeError.themeGeneration
        ("Missing color: " ++ c ++ " in theme " ++ tid), ?_⟩
      simp [buildUIColors, getColor, hfail, Bind.bind, Except.bind]
    · cases hcs2 : cs2 with
      | nil =>
        obtain ⟨e, he⟩ := ih hmt hfail
        exact ⟨e, by simp [buildUIColors, he]⟩
      | cons c2 cs2t =>
        obtain ⟨e0, he0⟩ := ih hmt hfail
        cases hg : getColor p tid c2 with
        | error e2 => exact ⟨e2, by simp [buildUIColors, hg, Bind.bind, Except.bind]⟩
        | ok vv => exact ⟨e0, by simp [buildUIColors, hg, he0, Bind.bind, Except.bind]⟩

/-! ## The claims -/

/-- C1.  The claim states that `resolveColor` returns a literal `#RRGGBB`
reference unchanged regardless of palette contents.  The code has no
literal-hex short-circuit: here the literal `#101010` is even the value of a
direct entry, yet resolving the reference `#101010` returns `undefined`
rather than the literal itself. -/
theorem hash_literal_reference_not_returned :
    resolveColor "#101010" (IColorPalette.mk [("bg-dim", "#101010")] []) = none := by
  simp [resolveColor, resolveLoop, lookupA]

/-- C2.  The claim states that a failed resolution of one UI-element mapping
entry is logged and skipped and synthesis completes.  In the code the local
`getColor` throws on the first unresolvable entry and no per-entry catch
exists, so the whole theme aborts; the shipped `VS_CODE_UI_MAPPINGS` even
contains the entry `('list.dropBetweenBackground', [''])` whose empty color name
can never resolve, so `generateTheme` fails for every palette, definition
and configuration. -/
theorem generateTheme_never_succeeds (palette : IColorPalette)
    (definition : IThemeDefinition) (config : IExtensionConfiguration) :
    ∃ e, generateTheme palette definition config = Except.error e := by
  have hmem : (("list.dropBetweenBackground", [""]) : String × List String) ∈
      VS_CODE_UI_MAPPINGS := by decide
  obtain ⟨e, he⟩ := buildUIColors_error_of_mem palette definition.id
    VS_CODE_UI_MAPPINGS hmem (resolveColor_empty_name palette)
  cases hval : validateThemeDefinition definition with
  | error e2 => exact ⟨e2, by simp [generateTheme, hval, Bind.bind, Except.bind]⟩
  | ok u => exact ⟨e, by simp [generateTheme, hval, he, Bind.bind, Except.bind]⟩

/-- C3.  The claim states that `"bg-dim@0.25"` resolves to `#10101040`
against the palette `{bg-dim ↦ #101010}`.  The code has no `@` opacity
handling at all: the whole string is looked up as a name and resolution
fails with `undefined`. -/
theorem opacity_suffix_reference_unresolved :
    resolveColor "bg-dim@0.25" (IColorPalette.mk [("bg-dim", "#101010")] []) = none := by
  simp [resolveColor, resolveLoop, lookupA]

/-- C4 counterexample.  The claim states that for every cyclic semantic
chain, every starting name on the cycle that is not a direct key resolves to
`undefined`.  Here `a → b → a` is a cycle and `a` is not a direct key, yet
resolution returns `#222222` because the walk reaches `b`, which has a
direct color, before revisiting anything. -/
theorem cycle_reaching_direct_returns_color :
    resolveColor "a" (IColorPalette.mk [("b", "#222222")] [("a", "b"), ("b", "a")]) =
      some "#222222" := by
  simp [resolveColor, resolveLoop, lookupA]

/-- C4 amended.  `resolveColor` always terminates (it is a total function of
this development), and resolution of a name without a direct color returns
`undefined` provided no semantic target on the walk has a direct color — in
particular, a purely cyclic semantic chain fails; a chain that reaches a
direct entry before revisiting a name returns that entry's color instead. -/
theorem cycle_resolution_returns_none (p : IColorPalette) (name : String)
    (hn : lookupA name p.colors = none)
    (hall : ∀ e ∈ p.semantics, lookupA e.2 p.colors = (none : Option String)) :
    resolveColor name p = none := by
  unfold resolveColor
  by_cases h0 : name = ""
  · simp [h0]
  · rw [if_neg h0, hn]
    exact resolveLoop_targets_none hall [] name

/-- C4 witness: the cycle `a → b → a` over an empty direct map satisfies the
hypotheses, and resolving `a` returns `undefined`. -/
theorem cycle_resolution_returns_none_witness :
    lookupA "a" (IColorPalette.mk [] [("a", "b"), ("b", "a")]).colors = none ∧
    (∀ e ∈ (IColorPalette.mk [] [("a", "b"), ("b", "a")]).semantics,
      lookupA e.2 (IColorPalette.mk [] [("a", "b"), ("b", "a")]).colors =
        (none : Option String)) ∧
    resolveColor "a" (IColorPalette.mk [] [("a", "b"), ("b", "a")]) = none :=
  ⟨rfl, by decide, cycle_resolution_returns_none _ "a" rfl (by decide)⟩

/-- C5.  When the direct-entry pattern finds no match in the source text,
parsing fails with a `ThemeParseError`, whatever semantic entries the text
contains. -/
theorem parse_without_direct_entries_fails (content : String)
    (h : scanDirect content.data = []) :
    parseThemeContent content =
      Except.error (ModusThemeError.themeParse "No colors found in theme file") := by
  simp [parseThemeContent, h]

/-- C5 witness: `"(foo bar)"` contains a valid semantic entry and no direct
entry, and parsing it fails. -/
theorem parse_without_direct_entries_fails_witness :
    scanDirect "(foo bar)".data = [] ∧
    scanSemantic "(foo bar)".data = [("foo", "bar")] ∧
    parseThemeContent "(foo bar)" =
      Except.error (ModusThemeError.themeParse "No colors found in theme file") :=
  ⟨by decide, by decide, parse_without_direct_entries_fails "(foo bar)" (by decide)⟩

/-- C6.  Merging the extensions layer `{a ↦ #222222}` over the base palette
`{a ↦ #111111}` and then the user overrides `{a ↦ #333333}` (user overrides
applied last, each layer merged with the code's right-biased, `#`-classified
`applyOverrides`) makes `a` resolve to `#333333`. -/
theorem user_override_wins_merge :
    ((applyOverrides (IColorPalette.mk [("a", "#111111")] []) [("a", "#222222")]).bind
      fun p1 => (applyOverrides p1 [("a", "#333333")]).map
        fun p2 => resolveColor "a" p2) = Except.ok (some "#333333") := rfl

/-- C7.  For a palette of the data model (`PaletteInv`), a name with a
direct color always resolves to that color, and layering a semantic
(non-`#`) override of the same name on top via `applyOverrides` cannot
change what the name resolves to. -/
theorem direct_entry_shadows_semantic (p : IColorPalette) (name c v : String)
    (hinv : PaletteInv p) (hc : lookupA name p.colors = some c)
    (hv : v ≠ "") (hvh : startsWithHash v = false) :
    resolveColor name p = some c ∧
    ∀ p2, applyOverrides p [(name, v)] = Except.ok p2 →
      resolveColor name p2 = some c := by
  have hne : name ≠ "" := (hinv.1 _ (lookupA_some_mem_pair hc)).1
  have h1 : resolveColor name p = some c := by
    unfold resolveColor
    rw [if_neg hne, hc]
  refine ⟨h1, ?_⟩
  intro p2 h2
  simp only [applyOverrides, applyOverridesLoop, if_neg hne, if_neg hv, hvh,
    Bool.false_eq_true, if_false, Except.map, Except.ok.injEq] at h2
  rw [← h2]
  unfold resolveColor
  rw [if_neg hne]
  simp only [hc]

/-- C7 witness: in the palette with direct entry `a ↦ #111111` and semantic
entry `a ↦ x`, the name `a` resolves to the direct color, and a semantic
override `a ↦ b` does not change that. -/
theorem direct_entry_shadows_semantic_witness :
    PaletteInv (IColorPalette.mk [("a", "#111111")] [("a", "x")]) ∧
    resolveColor "a" (IColorPalette.mk [("a", "#111111")] [("a", "x")]) =
      some "#111111" ∧
    ∀ p2, applyOverrides (IColorPalette.mk [("a", "#111111")] [("a", "x")])
        [("a", "b")] = Except.ok p2 → resolveColor "a" p2 = some "#111111" :=
  ⟨by decide,
   (direct_entry_shadows_semantic (IColorPalette.mk [("a", "#111111")] [("a", "x")])
     "a" "#111111" "b" (by decide) rfl (by decide) rfl).1,
   (direct_entry_shadows_semantic (IColorPalette.mk [("a", "#111111")] [("a", "x")])
     "a" "#111111" "b" (by decide) rfl (by decide) rfl).2⟩

/-- C8 counterexample.  The claim states `applyOverrides` skips an entry
with an empty key with a warning and never raises.  In the code
`Validator.notEmpty` throws and the catch block re-raises a
`ThemeParseError`, so the whole operation fails. -/
theorem empty_override_key_is_fatal :
    applyOverrides (IColorPalette.mk [("a", "#111111")] []) [("", "#222222")] =
      Except.error (ModusThemeError.themeParse
        "Failed to apply overrides: Override key cannot be empty") := rfl

/-- C8 amended.  A `#`-prefixed override value that fails hex validation is
skipped (it changes nothing) while all remaining entries are still applied,
and when no entry has an empty key or value the operation returns a palette;
an empty key or value, however, raises a `ThemeParseError`. -/
theorem applyOverrides_ok_and_skips_malformed (p : IColorPalette)
    (ov : List (String × String)) (h : ∀ e ∈ ov, e.1 ≠ "" ∧ e.2 ≠ "") :
    (∃ p2, applyOverrides p ov = Except.ok p2) ∧
    applyOverrides p ov =
      applyOverrides p (ov.filter fun e => !startsWithHash e.2 || isHexColor e.2) := by
  constructor
  · obtain ⟨r, hr⟩ := applyOverridesLoop_ok ov p.colors p.semantics h
    exact ⟨⟨r.1, r.2⟩, by simp [applyOverrides, hr, Except.map]⟩
  · unfold applyOverrides
    rw [applyOverridesLoop_filter ov p.colors p.semantics h]

/-- C8 witness: an override list with a malformed `#` value and a further
valid entry satisfies the hypotheses; applying it succeeds and equals
applying the list with the malformed entry dropped. -/
theorem applyOverrides_ok_and_skips_malformed_witness :
    (∀ e ∈ [("a", "#GGGGGG"), ("b", "#222222")], e.1 ≠ "" ∧ e.2 ≠ "") ∧
    (∃ p2, applyOverrides (IColorPalette.mk [] [])
      [("a", "#GGGGGG"), ("b", "#222222")] = Except.ok p2) :=
  ⟨by decide,
   (applyOverrides_ok_and_skips_malformed (IColorPalette.mk [] [])
     [("a", "#GGGGGG"), ("b", "#222222")] (by decide)).1⟩

/-- C9.  Every palette `parseThemeFile` returns satisfies the palette
invariant (non-empty keys, 6-digit hex direct values), and `applyOverrides`
preserves the invariant. -/
theorem palette_invariants_hold :
    (∀ content p, parseThemeContent content = Except.ok p → PaletteInv p) ∧
    (∀ p ov p2, PaletteInv p → applyOverrides p ov = Except.ok p2 → PaletteInv p2) := by
  constructor
  · intro content p h
    simp only [parseThemeContent] at h
    split at h
    · exact Except.noConfusion h
    · obtain rfl := (Except.ok.injEq _ _).mp h
      constructor
      · exact colorsFold_inv _ [] (by simp)
      · exact semFold_inv _ [] (scanSemantic_names_ne _) (by simp)
  · intro p ov p2 hinv h
    simp only [applyOverrides] at h
    cases hl : applyOverridesLoop p.colors p.semantics ov with
    | error e => rw [hl] at h; exact Except.noConfusion h
    | ok r =>
      rw [hl] at h
      simp only [Except.map, Except.ok.injEq] at h
      obtain ⟨hc, hs⟩ := applyOverridesLoop_inv ov p.colors p.semantics r hinv.1 hinv.2 hl
      rw [← h]
      exact ⟨hc, hs⟩

/-- C9 witness: the invariant holds of the palette parsed from a one-entry
source text, through the first component of the theorem. -/
theorem palette_invariants_hold_witness :
    PaletteInv (IColorPalette.mk [("a", "#111111")] []) :=
  palette_invariants_hold.1 "(a \"#111111\")" (IColorPalette.mk [("a", "#111111")] []) rfl

/-- C10.  `resolveColor` is total (it is a function of this development, and
internal validation failures are modelled by its `none` results): for every
name and palette the result is either `undefined` or a value drawn from the
palette's direct-color map. -/
theorem resolveColor_total_and_from_direct (name : String) (p : IColorPalette) :
    resolveColor name p = none ∨
    ∃ k v, lookupA k p.colors = some v ∧ resolveColor name p = some v := by
  unfold resolveColor
  by_cases h0 : name = ""
  · left; simp [h0]
  · rw [if_neg h0]
    cases hc : lookupA name p.colors with
    | some v => right; exact ⟨name, v, hc, rfl⟩
    | none => exact resolveLoop_none_or_from_colors p [] name
